import Mathlib

/-!
Verification development for the LXD managed-bridge network engine and its
device attachments.  The Go source under lxd/network, lxd/device and
lxd/instance/drivers is shallowly embedded: configuration maps become
association lists, IP addresses become byte lists, and every external side
effect (kernel facade, firewall, child processes, cluster store) is mediated
by an explicit environment record of success oracles so that the control flow
of the original functions is preserved exactly.  Helper functions of the
repository that are not part of the covered source (shared.IsTrue, GetIP,
cluster.NewNotifier, ProxyParseAddr, db.NodeSpecificNetworkConfig) are
modelled from the specification and marked as such in their doc comments.
-/

namespace Lxd

/-- A Go `map[string]string` linearised as an association list.  Lookup of a
missing key yields the empty string, as in Go. -/
abbrev Config := List (String × String)

/-- Go map indexing `m[k]`: empty string when the key is absent. -/
def Config.get (c : Config) (k : String) : String :=
  (List.lookup k c).getD ""

/-- The keys of a config, in iteration order. -/
def Config.keys (c : Config) : List String :=
  c.map Prod.fst

/-- Go `shared.StringInSlice`. -/
def stringInSlice (s : String) (l : List String) : Bool :=
  l.contains s

/-! ### Character-level string helpers

The Go `strings` package functions used by the source are reimplemented
here by structural recursion on the character list of the string (the
byte-position based functions of the Lean core library do not evaluate
inside the kernel). -/

/-- `strings.Split` with a one-character separator. -/
def splitOnChar (sep : Char) : List Char → List (List Char)
  | [] => [[]]
  | c :: rest =>
    let r := splitOnChar sep rest
    if c == sep then [] :: r
    else
      match r with
      | h :: t => (c :: h) :: t
      | [] => [[c]]

/-- `strings.Split` on the two-character separator `::` (used by the IPv6
textual format), scanning left to right without overlap. -/
def splitColonColon : List Char → List (List Char)
  | [] => [[]]
  | ':' :: ':' :: rest => [] :: splitColonColon rest
  | c :: rest =>
    match splitColonColon rest with
    | h :: t => (c :: h) :: t
    | [] => [[c]]

/-- `strings.Split` with a one-character separator, on strings. -/
def goSplit (s : String) (sep : Char) : List String :=
  (splitOnChar sep s.data).map fun cs => ⟨cs⟩

/-- `strings.HasPrefix`. -/
def goHasPre (s pre : String) : Bool :=
  pre.data.isPrefixOf s.data

/-- `strings.Contains` for a single character. -/
def goContainsChar (s : String) (c : Char) : Bool :=
  s.data.contains c

/-- `strings.TrimSpace` (ASCII whitespace). -/
def goTrimSpace (s : String) : String :=
  let ws : Char → Bool := fun c => c == ' ' ∨ c == '\t' ∨ c == '\n'
  ⟨((s.data.dropWhile ws).reverse.dropWhile ws).reverse⟩

/-- `strings.ToLower` (ASCII). -/
def goToLower (s : String) : String :=
  ⟨s.data.map Char.toLower⟩

/-- `strings.Replace(s, "-", ",", -1)`. -/
def goDashToComma (s : String) : String :=
  ⟨s.data.map fun c => if c == '-' then ',' else c⟩

/-- Modelled from the spec: `shared.IsTrue` (not under the covered source).
Boolean config values as described in section 6 of the spec (`ipv4.nat`
etc. are booleans); the usual truthy spellings are accepted. -/
def isTrue (s : String) : Bool :=
  stringInSlice (goToLower s) ["true", "1", "yes", "on"]

/-- Errors are carried as their Go message strings. -/
abbrev GoError := String

/-! ## IP addresses

A `net.IP` is a list of bytes (length 4 or 16).  A `net.IPNet` keeps the
(already masked, when produced by `parseCIDR`) network address and the
number of mask bits, mirroring `Mask.Size()`. -/

abbrev IPAddr := List Nat

structure IPNet where
  ip : IPAddr
  size : Nat
  deriving Repr, DecidableEq

/-- Byte `i` of the CIDR mask of the given prefix size. -/
def maskByte (size i : Nat) : Nat :=
  if size ≥ 8 * (i + 1) then 255
  else if size ≤ 8 * i then 0
  else 256 - 2 ^ (8 - (size - 8 * i))

/-- Go `IPNet.Contains`: masked bytes of the address equal the masked bytes
of the network address. -/
def IPNet.contains (n : IPNet) (ip : IPAddr) : Bool :=
  ip.length == n.ip.length &&
    (List.range n.ip.length).all fun i =>
      ip.getD i 0 &&& maskByte n.size i == n.ip.getD i 0 &&& maskByte n.size i

/-- Apply the prefix mask to an address. -/
def maskBytes (size : Nat) (ip : IPAddr) : IPAddr :=
  (List.range ip.length).map fun i => ip.getD i 0 &&& maskByte size i

/-- Big-endian byte list to natural number. -/
def ipToNat (bs : IPAddr) : Nat :=
  bs.foldl (fun a b => a * 256 + b) 0

/-- Natural number to a big-endian byte list of the given width. -/
def natToBytes (width n : Nat) : IPAddr :=
  (List.range width).map fun i => n / 256 ^ (width - 1 - i) % 256

/-! ### Parsing (Go `net.ParseIP` / `net.ParseCIDR`) -/

/-- Decimal digits to a natural number. -/
def digitsVal (cs : List Char) : Nat :=
  cs.foldl (fun a c => a * 10 + (c.toNat - Char.toNat '0')) 0

/-- One dotted-decimal IPv4 field: digits only, value at most 255, no
leading zeros (Go rejects them). -/
def parseV4Field (cs : List Char) : Option Nat :=
  if cs.isEmpty then none
  else if ¬ cs.all Char.isDigit then none
  else if cs.length > 1 && cs.headD ' ' == '0' then none
  else
    let n := digitsVal cs
    if n ≤ 255 then some n else none

/-- Go IPv4 textual parse: exactly four dotted fields. -/
def parseIPv4 (s : String) : Option IPAddr :=
  match (splitOnChar '.' s.data).mapM parseV4Field with
  | some [a, b, c, d] => some [a, b, c, d]
  | _ => none

def hexDigitVal (c : Char) : Option Nat :=
  if c.isDigit then some (c.toNat - '0'.toNat)
  else if 'a' ≤ c ∧ c ≤ 'f' then some (c.toNat - 'a'.toNat + 10)
  else if 'A' ≤ c ∧ c ≤ 'F' then some (c.toNat - 'A'.toNat + 10)
  else none

/-- One IPv6 group: one to four hex digits. -/
def parseV6Group (cs : List Char) : Option Nat :=
  if cs.length = 0 ∨ cs.length > 4 then none
  else (cs.mapM hexDigitVal).map fun ds =>
    ds.foldl (fun a d => a * 16 + d) 0

def groupsToBytes (gs : List Nat) : IPAddr :=
  gs.flatMap fun g => [g / 256 % 256, g % 256]

/-- Go IPv6 textual parse, covering plain eight-group forms and a single
`::` gap (the trailing dotted-quad form is not modelled; no covered claim
depends on it). -/
def parseIPv6 (s : String) : Option IPAddr :=
  let split (t : List Char) : Option (List Nat) :=
    if t.isEmpty then some [] else (splitOnChar ':' t).mapM parseV6Group
  match splitColonColon s.data with
  | [whole] =>
    match split whole with
    | some gs => if gs.length = 8 then some (groupsToBytes gs) else none
    | none => none
  | [l, r] =>
    match split l, split r with
    | some gl, some gr =>
      if gl.length + gr.length ≤ 7 then
        some (groupsToBytes (gl ++ List.replicate (8 - gl.length - gr.length) 0 ++ gr))
      else none
    | _, _ => none
  | _ => none

/-- Go `net.ParseIP`. -/
def parseIP (s : String) : Option IPAddr :=
  if goContainsChar s '.' ∧ ¬ goContainsChar s ':' then parseIPv4 s else parseIPv6 s

/-- Decimal mask field of a CIDR: digits, no leading zeros. -/
def parseMaskField (cs : List Char) (bits : Nat) : Option Nat :=
  if cs.isEmpty then none
  else if ¬ cs.all Char.isDigit then none
  else if cs.length > 1 && cs.headD ' ' == '0' then none
  else
    let n := digitsVal cs
    if n ≤ bits then some n else none

/-- Go `net.ParseCIDR`: address before the first slash, prefix length after.
Returns the unmasked address together with the masked network. -/
def parseCIDR (s : String) : Option (IPAddr × IPNet) :=
  match splitOnChar '/' s.data with
  | [addr, mask] =>
    match parseIP ⟨addr⟩ with
    | some ip =>
      match parseMaskField mask (8 * ip.length) with
      | some ones => some (ip, ⟨maskBytes ones ip, ones⟩)
      | none => none
    | none => none
  | _ => none

/-! ### Rendering (Go `net.IP.String`) -/

/-- Go `IP.To4`: four bytes, or an IPv4-mapped sixteen-byte address. -/
def ipTo4 (ip : IPAddr) : Option IPAddr :=
  if ip.length = 4 then some ip
  else if ip.length = 16 ∧ ip.take 10 = List.replicate 10 0 ∧
      ip.getD 10 0 = 255 ∧ ip.getD 11 0 = 255 then
    some (ip.drop 12)
  else none

def ipv4String (bs : IPAddr) : String :=
  String.intercalate "." (bs.map toString)

def hexString (n : Nat) : String :=
  ⟨Nat.toDigits 16 n⟩

/-- Sixteen bytes to eight 16-bit groups. -/
def toGroups (bs : IPAddr) : List Nat :=
  (List.range 8).map fun i => bs.getD (2 * i) 0 * 256 + bs.getD (2 * i + 1) 0

/-- Length of the zero run starting at position `i`. -/
def zeroRunLen (gs : List Nat) (i : Nat) : Nat :=
  ((gs.drop i).takeWhile (· = 0)).length

/-- Earliest longest run of at least two zero groups (Go chooses the first
strictly longest run and ignores runs of a single group). -/
def bestZeroRun (gs : List Nat) : Option (Nat × Nat) :=
  let best := (List.range gs.length).foldl
    (fun acc i =>
      let l := zeroRunLen gs i
      match acc with
      | some (_, bl) => if l > bl then some (i, l) else acc
      | none => if l > 0 then some (i, l) else acc)
    none
  match best with
  | some (i, l) => if l ≥ 2 then some (i, l) else none
  | none => none

def ipv6String (bs : IPAddr) : String :=
  let gs := toGroups bs
  match bestZeroRun gs with
  | none => String.intercalate ":" (gs.map hexString)
  | some (i, l) =>
    String.intercalate ":" ((gs.take i).map hexString) ++ "::" ++
      String.intercalate ":" ((gs.drop (i + l)).map hexString)

/-- Go `net.IP.String`. -/
def ipString (ip : IPAddr) : String :=
  match ipTo4 ip with
  | some b4 => ipv4String b4
  | none => if ip.length = 16 then ipv6String ip else "?" ++ ipv4String ip

/-- Go `net.IPNet.String` for nets produced by `parseCIDR`. -/
def ipnetString (n : IPNet) : String :=
  ipString n.ip ++ "/" ++ toString n.size

/-- Modelled from the spec: `GetIP` of lxd/network (not under the covered
source).  Section 4.3 of the spec: DHCP ranges default to
`[subnet+2 ... subnet-2]`, counting non-negative hosts from the subnet base
address and negative hosts down from one past the last address of the
subnet. -/
def GetIP (subnet : IPNet) (host : Int) : IPAddr :=
  let bits := 8 * subnet.ip.length
  let hostBits := bits - subnet.size
  let base : Int := Int.ofNat (ipToNat subnet.ip)
  let v : Int := base + (if host < 0 then (2 : Int) ^ hostBits + host else host)
  natToBytes subnet.ip.length (v.toNat % 2 ^ bits)

/-! ## fan address derivation (lxd/network/network.go, fanAddress and
addressForSubnet)

`net.Interfaces()` is represented by a list of interface records whose
`Addrs()` either fails (`none`) or yields CIDR strings. -/

structure GoIface where
  name : String
  addrs : Option (List String)
  deriving Repr, DecidableEq

/-- Inner loop of `addressForSubnet`: first address of the list that parses
and lies in the subnet. -/
def addrInList (subnet : IPNet) (addrs : List String) : Option IPAddr :=
  match addrs with
  | [] => none
  | a :: rest =>
    match parseCIDR a with
    | some (ip, _) => if subnet.contains ip then some ip else addrInList subnet rest
    | none => addrInList subnet rest

/-- `Network.addressForSubnet`: scan the host interfaces for the first
address contained in the subnet. -/
def addressForSubnet (ifaces : List GoIface) (subnet : IPNet) :
    Except GoError (IPAddr × String) :=
  match ifaces with
  | [] => .error "No address found in subnet"
  | i :: rest =>
    match i.addrs with
    | none => addressForSubnet rest subnet
    | some as =>
      match addrInList subnet as with
      | some ip => .ok (ip, i.name)
      | none => addressForSubnet rest subnet

/-- `Network.fanAddress`: returns `(address/prefix, device, host address)`.
The in-place byte mutations of the Go code become sequential `List.set`
updates in source order. -/
def fanAddress (ifaces : List GoIface) (underlay overlay : IPNet) :
    Except GoError (String × String × String) :=
  let underlaySize := underlay.size
  if underlaySize ≠ 16 ∧ underlaySize ≠ 24 then
    .error "Only /16 or /24 underlays are supported at this time"
  else
    let overlaySize := overlay.size
    if overlaySize ≠ 8 ∧ overlaySize ≠ 16 then
      .error "Only /8 or /16 overlays are supported at this time"
    else if overlaySize + (32 - underlaySize) + 8 > 32 then
      .error "Underlay or overlay networks too large to accommodate the FAN"
    else
      match addressForSubnet ifaces underlay with
      | .error e => .error e
      | .ok (ip, dev) =>
        let ipStr := ipString ip
        match ipTo4 ip with
        | none => .error ("Invalid IPv4: " ++ ipStr)
        | some b0 =>
          let b1 := b0.set 0 (overlay.ip.getD 0 0)
          let b2 :=
            if overlaySize = 16 then
              let x := b1.set 1 (overlay.ip.getD 1 0)
              x.set 2 (x.getD 3 0)
            else if underlaySize = 24 then
              let x := b1.set 1 (b1.getD 3 0)
              x.set 2 0
            else if underlaySize = 16 then
              let x := b1.set 1 (b1.getD 2 0)
              x.set 2 (x.getD 3 0)
            else b1
          let b3 := b2.set 3 1
          .ok (ipv4String b3 ++ "/" ++ toString overlaySize, dev, ipStr)

/-- A list of length four is literally a four-element list. -/
theorem list_len4 (l : List Nat) (h : l.length = 4) :
    ∃ a b c d, l = [a, b, c, d] := by
  match l, h with
  | [a, b, c, d], _ => exact ⟨a, b, c, d, rfl⟩

/-- Validity condition checked by `fanAddress`. -/
def fanSizesValid (underlay overlay : IPNet) : Prop :=
  (underlay.size = 16 ∨ underlay.size = 24) ∧
  (overlay.size = 8 ∨ overlay.size = 16) ∧
  overlay.size + (32 - underlay.size) + 8 ≤ 32

instance (u o : IPNet) : Decidable (fanSizesValid u o) := by
  unfold fanSizesValid; infer_instance

instance {e : Type} {a : Type} [DecidableEq e] [DecidableEq a] : DecidableEq (Except e a)
  | .error x, .error y =>
    if h : x = y then .isTrue (by rw [h]) else .isFalse (fun hc => h (Except.error.inj hc))
  | .error _, .ok _ => .isFalse (fun hc => Except.noConfusion hc)
  | .ok _, .error _ => .isFalse (fun hc => Except.noConfusion hc)
  | .ok x, .ok y =>
    if h : x = y then .isTrue (by rw [h]) else .isFalse (fun hc => h (Except.ok.inj hc))

/-- C4: fan address derivation.  For every underlay/overlay pair accepted by
the validity check (underlay /16 or /24, overlay /8 or /16, and
overlay_size + (32 - underlay_size) + 8 at most 32) and every host address
found inside the underlay, `fanAddress` returns an address that lies inside
the overlay subnet, has last octet 1 and carries the overlay prefix length;
for every pair failing the check it returns an error. -/
theorem fanAddress_spec
    (ifaces : List GoIface) (underlay overlay : IPNet) (hostIP : IPAddr) (dev : String)
    (hu4 : underlay.ip.length = 4) (ho4 : overlay.ip.length = 4)
    (haddr : addressForSubnet ifaces underlay = .ok (hostIP, dev))
    (hin : underlay.contains hostIP = true) :
    (fanSizesValid underlay overlay →
      ∃ fb : IPAddr,
        fanAddress ifaces underlay overlay =
          .ok (ipv4String fb ++ "/" ++ toString overlay.size, dev, ipString hostIP) ∧
        overlay.contains fb = true ∧ fb.getD 3 0 = 1) ∧
    (¬ fanSizesValid underlay overlay →
      ∃ e, fanAddress ifaces underlay overlay = .error e) := by
  have hlen : hostIP.length = 4 := by
    unfold IPNet.contains at hin
    rw [Bool.and_eq_true] at hin
    simpa [hu4] using hin.1
  obtain ⟨h0, h1, h2, h3, hh⟩ := list_len4 hostIP hlen
  obtain ⟨o0, o1, o2, o3, ho⟩ := list_len4 overlay.ip ho4
  subst hh
  have hip4 : ipTo4 [h0, h1, h2, h3] = some [h0, h1, h2, h3] := by
    unfold ipTo4; simp
  constructor
  · rintro ⟨hu, ho2, hle⟩
    rcases hu with hu | hu <;> rcases ho2 with hov | hov
    · refine ⟨[o0, h2, h3, 1], ?_, ?_, rfl⟩
      · simp [fanAddress, hu, hov, haddr, hip4, ho]
      · simp [IPNet.contains, ho, hov, maskByte, show List.range 4 = [0,1,2,3] from rfl]
    · exfalso; rw [hu, hov] at hle; omega
    · refine ⟨[o0, h3, 0, 1], ?_, ?_, rfl⟩
      · simp [fanAddress, hu, hov, haddr, hip4, ho]
      · simp [IPNet.contains, ho, hov, maskByte, show List.range 4 = [0,1,2,3] from rfl]
    · refine ⟨[o0, o1, h3, 1], ?_, ?_, rfl⟩
      · simp [fanAddress, hu, hov, haddr, hip4, ho]
      · simp [IPNet.contains, ho, hov, maskByte, show List.range 4 = [0,1,2,3] from rfl]
  · intro hbad
    by_cases c1 : underlay.size = 16 ∨ underlay.size = 24
    · by_cases c2 : overlay.size = 8 ∨ overlay.size = 16
      · have c3 : overlay.size + (32 - underlay.size) + 8 > 32 := by
          by_contra hc
          exact hbad ⟨c1, c2, Nat.le_of_not_lt hc⟩
        have hn1 : ¬ (underlay.size ≠ 16 ∧ underlay.size ≠ 24) := by tauto
        have hn2 : ¬ (overlay.size ≠ 8 ∧ overlay.size ≠ 16) := by tauto
        exact ⟨"Underlay or overlay networks too large to accommodate the FAN",
          by simp [fanAddress, hn1, hn2, c3]⟩
      · push_neg at c2
        have hn1 : ¬ (underlay.size ≠ 16 ∧ underlay.size ≠ 24) := by tauto
        exact ⟨"Only /8 or /16 overlays are supported at this time",
          by simp [fanAddress, hn1, c2.1, c2.2]⟩
    · push_neg at c1
      exact ⟨"Only /16 or /24 underlays are supported at this time",
        by simp [fanAddress, c1.1, c1.2]⟩

/-- Witness for C4 at the concrete pair underlay 10.1.0.0/16, overlay
240.0.0.0/8 with host address 10.1.2.3 on eth0. -/
theorem fanAddress_spec_witness :
    (IPNet.contains ⟨[10, 1, 0, 0], 16⟩ [10, 1, 2, 3] = true) ∧
    fanSizesValid ⟨[10, 1, 0, 0], 16⟩ ⟨[240, 0, 0, 0], 8⟩ ∧
    ∃ fb : IPAddr,
      fanAddress [⟨"eth0", some ["10.1.2.3/16"]⟩] ⟨[10, 1, 0, 0], 16⟩ ⟨[240, 0, 0, 0], 8⟩ =
        .ok (ipv4String fb ++ "/" ++ toString (8 : Nat), "eth0", ipString [10, 1, 2, 3]) ∧
      IPNet.contains ⟨[240, 0, 0, 0], 8⟩ fb = true ∧ fb.getD 3 0 = 1 :=
  ⟨by decide, by decide,
    (fanAddress_spec [⟨"eth0", some ["10.1.2.3/16"]⟩] ⟨[10, 1, 0, 0], 16⟩ ⟨[240, 0, 0, 0], 8⟩
      [10, 1, 2, 3] "eth0" (by decide) (by decide) (by decide) (by decide)).1 (by decide)⟩

/-! ## Cluster notifier

Only the tests of `cluster.NewNotifier` are part of the covered source
(TestNewNotifier, TestNewNotify_NotifyAllError, TestNewNotify_NotifyAlive),
so the notifier itself is modelled from the spec. -/

structure ClusterMember where
  name : String
  address : String
  /-- `now - lastHeartbeat`. -/
  heartbeatAge : Nat
  deriving Repr, DecidableEq

inductive NotifyPolicy
  | all
  | alive
  deriving Repr, DecidableEq

/-- Spec section 3: a member is alive iff `now - lastHeartbeat < threshold`. -/
def ClusterMember.isOffline (m : ClusterMember) (threshold : Nat) : Bool :=
  threshold ≤ m.heartbeatAge

/-- Modelled from the spec: `cluster.NewNotifier` (lxd/cluster/notify.go is
not under the covered source, only its tests are).  Spec section 4.7: scan
the member list, skipping the local member; with policy all, fail with
`peer node <name> is down` at the first offline peer; with policy alive,
skip offline peers silently.  The result is the list of peer addresses the
returned notifier invokes the hook against, in order. -/
def newNotifier (members : List ClusterMember) (localAddress : String)
    (threshold : Nat) (policy : NotifyPolicy) : Except GoError (List String) :=
  match members with
  | [] => .ok []
  | m :: rest =>
    if m.address == localAddress then newNotifier rest localAddress threshold policy
    else if m.isOffline threshold then
      match policy with
      | .all => .error ("peer node " ++ m.name ++ " is down")
      | .alive => newNotifier rest localAddress threshold policy
    else
      match newNotifier rest localAddress threshold policy with
      | .ok l => .ok (m.address :: l)
      | .error e => .error e

/-- C5: notifier policy.  With policy all, construction fails with an error
matching `peer node .+ is down` iff some peer (member other than the local
one) has a heartbeat at least as old as the offline threshold; with policy
alive, construction always succeeds and the hook is invoked exactly once
per alive peer, skipping down peers silently. -/
theorem newNotifier_policy (members : List ClusterMember) (localAddress : String)
    (threshold : Nat) (hnames : ∀ m ∈ members, m.name ≠ "") :
    ((∃ e, newNotifier members localAddress threshold .all = .error e ∧
        ∃ mid : String, mid ≠ "" ∧ e = "peer node " ++ mid ++ " is down") ↔
      ∃ m ∈ members, m.address ≠ localAddress ∧ threshold ≤ m.heartbeatAge) ∧
    (newNotifier members localAddress threshold .alive =
      .ok ((members.filter fun m =>
        !(m.address == localAddress) && !(m.isOffline threshold)).map (·.address))) := by
  induction members with
  | nil => simp [newNotifier]
  | cons m rest ih =>
    have hrest := ih (fun x hx => hnames x (List.mem_cons_of_mem m hx))
    have hm : m.name ≠ "" := hnames m (List.mem_cons_self m rest)
    by_cases hl : m.address = localAddress
    · constructor
      · rw [show newNotifier (m :: rest) localAddress threshold .all =
            newNotifier rest localAddress threshold .all by simp [newNotifier, hl]]
        rw [hrest.1]
        constructor
        · rintro ⟨x, hx, hprop⟩
          exact ⟨x, List.mem_cons_of_mem m hx, hprop⟩
        · rintro ⟨x, hx, hne, hage⟩
          rcases List.mem_cons.mp hx with hx | hx
          · exact absurd (hx ▸ hl) hne
          · exact ⟨x, hx, hne, hage⟩
      · simp [newNotifier, hl, hrest.2, ClusterMember.isOffline]
    · by_cases hoff : m.isOffline threshold
      · constructor
        · constructor
          · intro _
            exact ⟨m, List.mem_cons_self m rest, hl,
              by simpa [ClusterMember.isOffline] using hoff⟩
          · intro _
            exact ⟨"peer node " ++ m.name ++ " is down",
              by simp [newNotifier, hl, hoff], m.name, hm, rfl⟩
        · simp [newNotifier, hl, hoff, hrest.2]
      · constructor
        · constructor
          · rintro ⟨e, he, hmatch⟩
            rw [show newNotifier (m :: rest) localAddress threshold .all =
                (match newNotifier rest localAddress threshold .all with
                 | .ok l => .ok (m.address :: l)
                 | .error e => .error e) by simp [newNotifier, hl, hoff]] at he
            cases hrec : newNotifier rest localAddress threshold .all with
            | ok l => rw [hrec] at he; exact absurd he (by simp)
            | error e2 =>
              rw [hrec] at he
              simp only [Except.error.injEq] at he
              subst he
              obtain ⟨x, hx, hprop⟩ := hrest.1.mp ⟨e2, hrec, hmatch⟩
              exact ⟨x, List.mem_cons_of_mem m hx, hprop⟩
          · rintro ⟨x, hx, hne, hage⟩
            rcases List.mem_cons.mp hx with hx | hx
            · subst hx
              exact absurd hage (by simpa [ClusterMember.isOffline] using hoff)
            · obtain ⟨e, he, hmatch⟩ := hrest.1.mpr ⟨x, hx, hne, hage⟩
              exact ⟨e, by simp [newNotifier, hl, hoff, he], hmatch⟩
        · simp [newNotifier, hl, hoff, hrest.2]

/-- Witness for C5 at the test fixture: three members, the local one first,
member 1 down (heartbeat a minute old against a 20 second threshold). -/
theorem newNotifier_policy_witness :
    (∀ m ∈ [(⟨"0", "a0", 0⟩ : ClusterMember), ⟨"1", "a1", 60⟩, ⟨"2", "a2", 0⟩], m.name ≠ "") ∧
    ((∃ e, newNotifier [⟨"0", "a0", 0⟩, ⟨"1", "a1", 60⟩, ⟨"2", "a2", 0⟩] "a0" 20 .all = .error e ∧
        ∃ mid : String, mid ≠ "" ∧ e = "peer node " ++ mid ++ " is down") ↔
      ∃ m ∈ [(⟨"0", "a0", 0⟩ : ClusterMember), ⟨"1", "a1", 60⟩, ⟨"2", "a2", 0⟩],
        m.address ≠ "a0" ∧ 20 ≤ m.heartbeatAge) ∧
    (newNotifier [⟨"0", "a0", 0⟩, ⟨"1", "a1", 60⟩, ⟨"2", "a2", 0⟩] "a0" 20 .alive =
      .ok (([(⟨"0", "a0", 0⟩ : ClusterMember), ⟨"1", "a1", 60⟩, ⟨"2", "a2", 0⟩].filter fun m =>
        !(m.address == "a0") && !(m.isOffline 20)).map (·.address))) :=
  ⟨by decide,
    newNotifier_policy [⟨"0", "a0", 0⟩, ⟨"1", "a1", 60⟩, ⟨"2", "a2", 0⟩] "a0" 20 (by decide)⟩


def breakAtFirst (sep : Char) : List Char → Option (List Char × List Char)
  | [] => none
  | c :: rest =>
    if c == sep then some ([], rest)
    else
      match breakAtFirst sep rest with
      | some (a, b) => some (c :: a, b)
      | none => none

def breakAtLast (sep : Char) (cs : List Char) : Option (List Char × List Char) :=
  match breakAtFirst sep cs.reverse with
  | some (a, b) => some (b.reverse, a.reverse)
  | none => none

structure ProxyAddress where
  connType : String
  addr : List String
  deriving Repr, DecidableEq

/-- Modelled from the spec: `ProxyParseAddr` (device_utils_proxy.go is not
under the covered source).  Spec section 4.8: listen and connect parse as
`proto:addr[,addr]`; for inet protocols the port list after the last colon
is expanded into host:port entries. -/
def proxyParseAddr (s : String) : Except GoError ProxyAddress :=
  match breakAtFirst ':' s.data with
  | none => .error "Proxy address without protocol"
  | some (proto, rest) =>
    let protoS : String := ⟨proto⟩
    if protoS == "unix" then .ok ⟨protoS, [⟨rest⟩]⟩
    else
      match breakAtLast ':' rest with
      | none => .error "Proxy address without port"
      | some (host, ports) =>
        let portList := splitOnChar ',' ports
        if portList.any List.isEmpty then .error "Empty port in proxy address"
        else
          .ok ⟨protoS, portList.map fun p => (⟨host⟩ : String) ++ ":" ++ ⟨p⟩⟩

/-- Go `net.SplitHostPort` for the forms used here: `host:port` with a
single colon, or `[host]:port`. -/
def splitHostPort (s : String) : Option (String × String) :=
  match s.data with
  | '[' :: rest =>
    match breakAtFirst ']' rest with
    | some (host, ':' :: port) => some (⟨host⟩, ⟨port⟩)
    | _ => none
  | cs =>
    match splitOnChar ':' cs with
    | [h, p] => some (⟨h⟩, ⟨p⟩)
    | _ => none

/-- Modelled from the spec: `deviceConfig.Device.NICType` (not under the
covered source); the bridged/routed/proxy type tag of a NIC attachment
(spec section 3) read from its `nictype` key. -/
def nicType (d : Config) : String :=
  d.get "nictype"

/-- Candidate connect IP for one device in the scan loop of
`proxy.setupNAT` (lxd/device/proxy.go lines 286-294): a static address of
the connect family that equals the connect host or is selected by the
wildcard, skipped when it does not parse. -/
def candidateIP (ipFamily connectHost : String) (devCfg : Config) : Option IPAddr :=
  if ipFamily = "ipv4" ∧ devCfg.get "ipv4.address" ≠ "" then
    if connectHost = devCfg.get "ipv4.address" ∨ connectHost = "0.0.0.0" then
      parseIP (devCfg.get "ipv4.address")
    else none
  else if ipFamily = "ipv6" ∧ devCfg.get "ipv6.address" ≠ "" then
    if connectHost = devCfg.get "ipv6.address" ∨ connectHost = "::" then
      parseIP (devCfg.get "ipv6.address")
    else none
  else none

/-- The device-scan loop of `proxy.setupNAT` (lxd/device/proxy.go lines
278-301): first bridged NIC yielding a candidate connect IP, together with
the volatile host_name of that device. -/
def selectConnectIP (devices : List (String × Config)) (instCfg : Config)
    (ipFamily connectHost : String) : Option (String × IPAddr × String) :=
  match devices with
  | [] => none
  | (devName, devCfg) :: rest =>
    if devCfg.get "type" ≠ "nic" ∨ (devCfg.get "type" = "nic" ∧ nicType devCfg ≠ "bridged") then
      selectConnectIP rest instCfg ipFamily connectHost
    else
      match candidateIP ipFamily connectHost devCfg with
      | some ip =>
        some (devName, ip, instCfg.get ("volatile." ++ devName ++ ".host_name"))
      | none => selectConnectIP rest instCfg ipFamily connectHost

structure NatEnv where
  devices : List (String × Config)
  instCfg : Config
  netfilterEnabled : Except GoError Unit
  hairpinOk : Bool
  firewallOk : Bool

structure NatTrace where
  selected : Option (String × IPAddr × String) := none
  hairpinSet : Bool := false
  natRuleInstalled : Bool := false
  deriving Repr, DecidableEq

/-- Rewrite of the connect address list with the chosen connect IP
(lxd/device/proxy.go lines 307-320). -/
def overrideConnectAddrs (ipFamily : String) (ip : IPAddr) (addrs : List String) :
    Except GoError (List String) :=
  addrs.mapM fun a =>
    match splitHostPort a with
    | none => .error "address without port"
    | some (_, port) =>
      if ipFamily = "ipv4" then .ok (ipString ip ++ ":" ++ port)
      else .ok ("[" ++ ipString ip ++ "]:" ++ port)

/-- Steps of `proxy.setupNAT` following the connect device selection
(lxd/device/proxy.go lines 307-344): connect address rewrite, bridge
netfilter check (failure only warns), hairpin mode, firewall rules. -/
def setupNATtail (env : NatEnv) (ipFamily : String) (connectIP : IPAddr)
    (hostName : String) (addrs : List String) (tr : NatTrace) :
    Except GoError Unit × NatTrace :=
  match overrideConnectAddrs ipFamily connectIP addrs with
  | .error e => (.error e, tr)
  | .ok _ =>
    match env.netfilterEnabled with
    | .error _ =>
      if env.firewallOk then (.ok (), { tr with natRuleInstalled := true })
      else (.error "firewall setup failed", tr)
    | .ok _ =>
      if hostName = "" then
        (.error "Proxy cannot find bridge port host_name to enable hairpin mode", tr)
      else if ¬ env.hairpinOk then
        (.error "Error enabling hairpin mode on bridge port", tr)
      else if env.firewallOk then
        (.ok (), { tr with hairpinSet := true, natRuleInstalled := true })
      else (.error "firewall setup failed", { tr with hairpinSet := true })

/-- `proxy.setupNAT`: returns the Go result together with an observation
trace of the chosen connect device. -/
def setupNAT (cfg : Config) (env : NatEnv) : Except GoError Unit × NatTrace :=
  match proxyParseAddr (cfg.get "listen") with
  | .error e => (.error e, {})
  | .ok _ =>
    match proxyParseAddr (cfg.get "connect") with
    | .error e => (.error e, {})
    | .ok connectAddr =>
      match splitHostPort (connectAddr.addr.getD 0 "") with
      | none => (.error "connect host split failed", {})
      | some (connectHost, _) =>
        let ipFamily := if goContainsChar connectHost ':' then "ipv6" else "ipv4"
        match selectConnectIP env.devices env.instCfg ipFamily connectHost with
        | none =>
          (.error "Proxy connect IP cannot be used with any of the instance NICs static IPs", {})
        | some (devName, connectIP, hostName) =>
          setupNATtail env ipFamily connectIP hostName connectAddr.addr
            { selected := some (devName, connectIP, hostName) }

/-- Match condition of claim C6: the device is a bridged NIC with a static
address of the family and the connect host equals it or is the wildcard. -/
def connectMatches (ipFamily connectHost : String) (devCfg : Config) : Prop :=
  devCfg.get "type" = "nic" ∧ nicType devCfg = "bridged" ∧
  ((ipFamily = "ipv4" ∧ devCfg.get "ipv4.address" ≠ "" ∧
      (connectHost = devCfg.get "ipv4.address" ∨ connectHost = "0.0.0.0")) ∨
   (ipFamily = "ipv6" ∧ devCfg.get "ipv6.address" ≠ "" ∧
      (connectHost = devCfg.get "ipv6.address" ∨ connectHost = "::")))

/-- First bridged NIC with a static address of the given family. -/
def firstStaticNIC (devices : List (String × Config)) (ipFamily : String) :
    Option (String × Config) :=
  match devices with
  | [] => none
  | d :: rest =>
    if d.2.get "type" = "nic" ∧ nicType d.2 = "bridged" ∧
        (if ipFamily = "ipv4" then d.2.get "ipv4.address" ≠ ""
         else d.2.get "ipv6.address" ≠ "") then
      some d
    else firstStaticNIC rest ipFamily

theorem candidateIP_matches (ipFamily connectHost : String) (devCfg : Config) (ip : IPAddr)
    (h : candidateIP ipFamily connectHost devCfg = some ip) :
    (ipFamily = "ipv4" ∧ devCfg.get "ipv4.address" ≠ "" ∧
       (connectHost = devCfg.get "ipv4.address" ∨ connectHost = "0.0.0.0")) ∨
    (ipFamily = "ipv6" ∧ devCfg.get "ipv6.address" ≠ "" ∧
       (connectHost = devCfg.get "ipv6.address" ∨ connectHost = "::")) := by
  unfold candidateIP at h
  split at h
  · rename_i h4
    split at h
    · rename_i hm
      exact Or.inl ⟨h4.1, h4.2, hm⟩
    · exact absurd h (by simp)
  · split at h
    · rename_i h6
      split at h
      · rename_i hm
        exact Or.inr ⟨h6.1, h6.2, hm⟩
      · exact absurd h (by simp)
    · exact absurd h (by simp)

theorem selectConnectIP_sound (devices : List (String × Config)) (instCfg : Config)
    (ipFamily connectHost : String) (sel : String × IPAddr × String)
    (h : selectConnectIP devices instCfg ipFamily connectHost = some sel) :
    ∃ d ∈ devices, connectMatches ipFamily connectHost d.2 := by
  induction devices with
  | nil => simp [selectConnectIP] at h
  | cons d rest ih =>
    rw [selectConnectIP] at h
    by_cases hskip : d.2.get "type" ≠ "nic" ∨ (d.2.get "type" = "nic" ∧ nicType d.2 ≠ "bridged")
    · rw [if_pos hskip] at h
      obtain ⟨x, hx, hp⟩ := ih h
      exact ⟨x, List.mem_cons_of_mem d hx, hp⟩
    · rw [if_neg hskip] at h
      push_neg at hskip
      cases hc : candidateIP ipFamily connectHost d.2 with
      | some ip =>
        refine ⟨d, List.mem_cons_self d rest, hskip.1, hskip.2 hskip.1, ?_⟩
        exact candidateIP_matches ipFamily connectHost d.2 ip hc
      | none =>
        rw [hc] at h
        obtain ⟨x, hx, hp⟩ := ih h
        exact ⟨x, List.mem_cons_of_mem d hx, hp⟩

theorem selectConnectIP_wildcard4 (devices : List (String × Config)) (instCfg : Config)
    (n : String) (d : Config) (ip : IPAddr)
    (hfirst : firstStaticNIC devices "ipv4" = some (n, d))
    (hp : parseIP (d.get "ipv4.address") = some ip) :
    selectConnectIP devices instCfg "ipv4" "0.0.0.0" =
      some (n, ip, instCfg.get ("volatile." ++ n ++ ".host_name")) := by
  induction devices with
  | nil => simp [firstStaticNIC] at hfirst
  | cons dd rest ih =>
    obtain ⟨dn, dc⟩ := dd
    rw [firstStaticNIC] at hfirst
    by_cases hpred : (dn, dc).2.get "type" = "nic" ∧ nicType (dn, dc).2 = "bridged" ∧
        (if "ipv4" = "ipv4" then (dn, dc).2.get "ipv4.address" ≠ ""
         else (dn, dc).2.get "ipv6.address" ≠ "")
    · rw [if_pos hpred] at hfirst
      simp only [Option.some.injEq, Prod.mk.injEq] at hfirst
      obtain ⟨rfl, rfl⟩ := hfirst
      obtain ⟨htyp, hbr, haddr⟩ := hpred
      rw [if_pos rfl] at haddr
      rw [selectConnectIP, if_neg (by simp [htyp, hbr])]
      simp [candidateIP, haddr, hp]
    · rw [if_neg hpred] at hfirst
      have hrec := ih hfirst
      rw [selectConnectIP]
      by_cases htyp : dc.get "type" = "nic"
      · by_cases hbr : nicType dc = "bridged"
        · have haddr : dc.get "ipv4.address" = "" := by
            by_contra hne
            exact hpred ⟨htyp, hbr, by simpa using hne⟩
          rw [if_neg (by simp [htyp, hbr])]
          simp only [candidateIP, haddr]
          simpa using hrec
        · rw [if_pos (Or.inr ⟨htyp, hbr⟩)]
          exact hrec
      · rw [if_pos (Or.inl htyp)]
        exact hrec

theorem selectConnectIP_wildcard6 (devices : List (String × Config)) (instCfg : Config)
    (n : String) (d : Config) (ip : IPAddr)
    (hfirst : firstStaticNIC devices "ipv6" = some (n, d))
    (hp : parseIP (d.get "ipv6.address") = some ip) :
    selectConnectIP devices instCfg "ipv6" "::" =
      some (n, ip, instCfg.get ("volatile." ++ n ++ ".host_name")) := by
  induction devices with
  | nil => simp [firstStaticNIC] at hfirst
  | cons dd rest ih =>
    obtain ⟨dn, dc⟩ := dd
    rw [firstStaticNIC] at hfirst
    by_cases hpred : (dn, dc).2.get "type" = "nic" ∧ nicType (dn, dc).2 = "bridged" ∧
        (if "ipv6" = "ipv4" then (dn, dc).2.get "ipv4.address" ≠ ""
         else (dn, dc).2.get "ipv6.address" ≠ "")
    · rw [if_pos hpred] at hfirst
      simp only [Option.some.injEq, Prod.mk.injEq] at hfirst
      obtain ⟨rfl, rfl⟩ := hfirst
      obtain ⟨htyp, hbr, haddr⟩ := hpred
      rw [if_neg (by decide)] at haddr
      rw [selectConnectIP, if_neg (by simp [htyp, hbr])]
      simp [candidateIP, haddr, hp]
    · rw [if_neg hpred] at hfirst
      have hrec := ih hfirst
      rw [selectConnectIP]
      by_cases htyp : dc.get "type" = "nic"
      · by_cases hbr : nicType dc = "bridged"
        · have haddr : dc.get "ipv6.address" = "" := by
            by_contra hne
            refine hpred ⟨htyp, hbr, ?_⟩
            rw [if_neg (by decide)]
            simpa using hne
          rw [if_neg (by simp [htyp, hbr])]
          simp only [candidateIP, haddr]
          simpa using hrec
        · rw [if_pos (Or.inr ⟨htyp, hbr⟩)]
          exact hrec
      · rw [if_pos (Or.inl htyp)]
        exact hrec

theorem setupNATtail_selected (env : NatEnv) (ipFamily : String) (connectIP : IPAddr)
    (hostName : String) (addrs : List String) (tr : NatTrace) :
    (setupNATtail env ipFamily connectIP hostName addrs tr).2.selected = tr.selected := by
  unfold setupNATtail
  split
  · rfl
  · split
    · split <;> rfl
    · split
      · rfl
      · split
        · rfl
        · split <;> rfl

/-- C6: proxy NAT connect-host precondition.  For a proxy device in NAT
mode, setupNAT succeeds only if the connect host equals a static address of
one of the instance bridged NICs of the same family or is the wildcard
address; with the wildcard, the first bridged NIC with a static address of
that family is chosen as the connect IP. -/
theorem setupNAT_connect_precondition (cfg : Config) (env : NatEnv)
    (listenAddr connectAddr : ProxyAddress) (connectHost port ipFamily : String)
    (hlisten : proxyParseAddr (cfg.get "listen") = .ok listenAddr)
    (hconn : proxyParseAddr (cfg.get "connect") = .ok connectAddr)
    (hsplit : splitHostPort (connectAddr.addr.getD 0 "") = some (connectHost, port))
    (hfam : ipFamily = if goContainsChar connectHost ':' then "ipv6" else "ipv4") :
    ((setupNAT cfg env).1 = .ok () →
      ∃ d ∈ env.devices, connectMatches ipFamily connectHost d.2) ∧
    (∀ n dc ip,
      ((ipFamily = "ipv4" ∧ connectHost = "0.0.0.0") ∨
        (ipFamily = "ipv6" ∧ connectHost = "::")) →
      firstStaticNIC env.devices ipFamily = some (n, dc) →
      parseIP (dc.get (if ipFamily = "ipv4" then "ipv4.address" else "ipv6.address")) = some ip →
      (setupNAT cfg env).2.selected =
        some (n, ip, env.instCfg.get ("volatile." ++ n ++ ".host_name"))) := by
  constructor
  · intro hok
    simp only [setupNAT, hlisten, hconn, hsplit] at hok
    rcases hsel : selectConnectIP env.devices env.instCfg
        (if goContainsChar connectHost ':' then "ipv6" else "ipv4") connectHost with _ | sel
    · rw [hsel] at hok
      simp at hok
    · rw [← hfam] at hsel
      exact selectConnectIP_sound env.devices env.instCfg ipFamily connectHost sel hsel
  · rintro n dc ip (⟨hf, hw⟩ | ⟨hf, hw⟩) hfirst hp
    · subst hw
      have hfam4 : (if goContainsChar "0.0.0.0" ':' then "ipv6" else "ipv4") = "ipv4" := by
        decide
      rw [hfam4] at hfam
      subst hfam
      rw [if_pos rfl] at hp
      have hsel := selectConnectIP_wildcard4 env.devices env.instCfg n dc ip hfirst hp
      simp only [setupNAT, hlisten, hconn, hsplit, hfam4, hsel, setupNATtail_selected]
    · subst hw
      have hfam6 : (if goContainsChar "::" ':' then "ipv6" else "ipv4") = "ipv6" := by
        decide
      rw [hfam6] at hfam
      subst hfam
      rw [if_neg (by decide)] at hp
      have hsel := selectConnectIP_wildcard6 env.devices env.instCfg n dc ip hfirst hp
      simp only [setupNAT, hlisten, hconn, hsplit, hfam6, hsel, setupNATtail_selected]

/-- Witness for C6: wildcard connect host 0.0.0.0 picks the single bridged
NIC with static address 10.0.0.5. -/
theorem setupNAT_connect_precondition_witness :
    (setupNAT [("listen", "tcp:0.0.0.0:80"), ("connect", "tcp:0.0.0.0:80")]
        ⟨[("eth0", [("type", "nic"), ("nictype", "bridged"), ("ipv4.address", "10.0.0.5")])],
         [("volatile.eth0.host_name", "veth123")], .ok (), true, true⟩).2.selected =
      some ("eth0", [10, 0, 0, 5], "veth123") := by
  have h := (setupNAT_connect_precondition
      [("listen", "tcp:0.0.0.0:80"), ("connect", "tcp:0.0.0.0:80")]
      ⟨[("eth0", [("type", "nic"), ("nictype", "bridged"), ("ipv4.address", "10.0.0.5")])],
       [("volatile.eth0.host_name", "veth123")], .ok (), true, true⟩
      ⟨"tcp", ["0.0.0.0:80"]⟩ ⟨"tcp", ["0.0.0.0:80"]⟩
      "0.0.0.0" "80" "ipv4" (by decide) (by decide) (by decide) (by decide)).2
    "eth0" [("type", "nic"), ("nictype", "bridged"), ("ipv4.address", "10.0.0.5")] [10, 0, 0, 5]
    (Or.inl ⟨rfl, rfl⟩) (by decide) (by decide)
  simpa using h

structure KillEnv where
  pidfile : Option String
  procExists : String → Bool
  cmdline : String → Option String
  killOk : Bool

structure KillOut where
  result : Except GoError Unit
  signalled : Option Int
  pidfileRemoved : Bool
  deriving Repr, DecidableEq

/-- `bytes.TrimRight(cmdArgs, "\x00")`. -/
def trimRightNul (s : String) : String :=
  ⟨(s.data.reverse.dropWhile (· == '\x00')).reverse⟩

/-- The argv fields read from /proc/pid/cmdline: trailing NUL bytes
stripped, then split on NUL. -/
def cmdFieldsOf (raw : String) : List String :=
  (splitOnChar '\x00' (trimRightNul raw).data).map fun cs => ⟨cs⟩

/-- Go `strconv.Atoi` (overflow not modelled). -/
def goAtoi (s : String) : Option Int :=
  match s.data with
  | [] => none
  | '-' :: rest =>
    if rest ≠ [] ∧ rest.all Char.isDigit then some (-(digitsVal rest : Int)) else none
  | '+' :: rest =>
    if rest ≠ [] ∧ rest.all Char.isDigit then some ((digitsVal rest : Int)) else none
  | cs => if cs.all Char.isDigit then some ((digitsVal cs : Int)) else none

/-- `proxy.killProxyProc` (lxd/device/proxy.go lines 433-475) over an
environment giving the pidfile contents, /proc existence and cmdline
contents; the output records the Go result, the pid signalled with SIGKILL
if any, and whether the pidfile was removed. -/
def killProxyProc (env : KillEnv) : KillOut :=
  match env.pidfile with
  | none => ⟨.error "could not read pid file", none, false⟩
  | some contents =>
    let pidString := goTrimSpace contents
    if ¬ env.procExists pidString then ⟨.ok (), none, true⟩
    else
      match env.cmdline pidString with
      | none => ⟨.ok (), none, true⟩
      | some raw =>
        let cmdFields := cmdFieldsOf raw
        if cmdFields.length < 5 ∨ cmdFields.getD 1 "" ≠ "forkproxy" then ⟨.ok (), none, true⟩
        else
          match goAtoi pidString with
          | none => ⟨.error "invalid pid", none, false⟩
          | some pidInt =>
            if env.killOk then ⟨.ok (), some pidInt, true⟩
            else ⟨.error "kill failed", some pidInt, false⟩

/-- C9: no wrong-process kill.  killProxyProc signals a process only when
its /proc cmdline has the forkproxy argv shape (at least five fields,
second field forkproxy); in every stale-cmdline case it removes the pidfile
and returns success without signalling. -/
theorem killProxyProc_no_wrong_kill (env : KillEnv) :
    (∀ pid, (killProxyProc env).signalled = some pid →
      ∃ contents raw, env.pidfile = some contents ∧
        env.procExists (goTrimSpace contents) = true ∧
        env.cmdline (goTrimSpace contents) = some raw ∧
        5 ≤ (cmdFieldsOf raw).length ∧ (cmdFieldsOf raw).getD 1 "" = "forkproxy") ∧
    (∀ contents raw, env.pidfile = some contents →
      env.procExists (goTrimSpace contents) = true →
      env.cmdline (goTrimSpace contents) = some raw →
      ((cmdFieldsOf raw).length < 5 ∨ (cmdFieldsOf raw).getD 1 "" ≠ "forkproxy") →
      killProxyProc env = ⟨.ok (), none, true⟩) := by
  constructor
  · intro pid hsig
    unfold killProxyProc at hsig
    rcases hpf : env.pidfile with _ | contents
    · rw [hpf] at hsig
      simp at hsig
    · rw [hpf] at hsig
      simp only at hsig
      by_cases hproc : env.procExists (goTrimSpace contents) = true
      · rw [if_neg (by simp [hproc])] at hsig
        rcases hcl : env.cmdline (goTrimSpace contents) with _ | raw
        · rw [hcl] at hsig
          simp at hsig
        · rw [hcl] at hsig
          simp only at hsig
          by_cases hfields : (cmdFieldsOf raw).length < 5 ∨ (cmdFieldsOf raw).getD 1 "" ≠ "forkproxy"
          · rw [if_pos hfields] at hsig
            simp at hsig
          · push_neg at hfields
            exact ⟨contents, raw, rfl, hproc, hcl, hfields.1, hfields.2⟩
      · rw [if_pos (by simpa using hproc)] at hsig
        simp at hsig
  · intro contents raw hpf hproc hcl hfields
    unfold killProxyProc
    rw [hpf]
    simp only
    rw [if_neg (by simp [hproc]), hcl]
    simp only
    rw [if_pos hfields]

/-- Witness for C9: a stale pidfile pointing at a forkdns process is
removed without a signal. -/
theorem killProxyProc_no_wrong_kill_witness :
    killProxyProc ⟨some "123", fun _ => true, fun _ => some "lxd\x00forkdns\x00a", true⟩ =
      ⟨.ok (), none, true⟩ :=
  (killProxyProc_no_wrong_kill ⟨some "123", fun _ => true, fun _ => some "lxd\x00forkdns\x00a", true⟩).2
    "123" "lxd\x00forkdns\x00a" rfl rfl rfl (by decide)

/-! ## Network.Stop (lxd/network/network.go lines 1056-1137) -/

inductive StopEffect
  | runCmd (args : List String)
  | fwClear (tag : String)
  | dnsmasqKill
  | forkdnsKill
  | ifaceQuery
  deriving Repr, DecidableEq

structure StopEnv where
  isRunning : Bool
  runOk : List String → Bool
  fwOk : String → Bool
  dnsmasqKillOk : Bool
  forkdnsKillOk : Bool
  ifacesRes : Option (List String)

structure NetInfo where
  name : String
  config : Config

/-- The sequence of side-effecting steps `Network.Stop` performs after its
running guard, in source order, each paired with its success under the
environment. -/
def stopSteps (n : NetInfo) (env : StopEnv) : List (StopEffect × Bool) :=
  (if n.config.get "bridge.driver" = "openvswitch" then
    [(.runCmd ["ovs-vsctl", "del-br", n.name], env.runOk ["ovs-vsctl", "del-br", n.name])]
   else
    [(.runCmd ["ip", "link", "del", "dev", n.name],
      env.runOk ["ip", "link", "del", "dev", n.name])]) ++
  (if n.config.get "ipv4.firewall" = "" ∨ isTrue (n.config.get "ipv4.firewall") then
    [(.fwClear "ipv4-all", env.fwOk "ipv4-all"),
     (.fwClear "ipv4-mangle", env.fwOk "ipv4-mangle")]
   else []) ++
  (if isTrue (n.config.get "ipv4.nat") then
    [(.fwClear "ipv4-nat", env.fwOk "ipv4-nat")] else []) ++
  (if n.config.get "ipv6.firewall" = "" ∨ isTrue (n.config.get "ipv6.firewall") then
    [(.fwClear "ipv6-all", env.fwOk "ipv6-all")] else []) ++
  (if isTrue (n.config.get "ipv6.nat") then
    [(.fwClear "ipv6-nat", env.fwOk "ipv6-nat")] else []) ++
  [(.dnsmasqKill, env.dnsmasqKillOk), (.forkdnsKill, env.forkdnsKillOk)] ++
  (match env.ifacesRes with
   | none => [(.ifaceQuery, false)]
   | some ifaces =>
     (.ifaceQuery, true) ::
       ((ifaces.filter fun i => goHasPre i (n.name ++ "-")).map fun i =>
         (.runCmd ["ip", "link", "del", "dev", i],
          env.runOk ["ip", "link", "del", "dev", i])))

/-- Run the steps in order, stopping at the first failure; the second
component lists the effects attempted. -/
def runSteps : List (StopEffect × Bool) → Except GoError Unit × List StopEffect
  | [] => (.ok (), [])
  | (e, ok) :: rest =>
    if ok then
      let r := runSteps rest
      (r.1, e :: r.2)
    else (.error "step failed", [e])

/-- `Network.Stop`: the running guard comes before every side effect. -/
def networkStop (n : NetInfo) (env : StopEnv) : Except GoError Unit × List StopEffect :=
  if ¬ env.isRunning then (.error "The network is already stopped", [])
  else runSteps (stopSteps n env)

/-- C10: Stop on a stopped network is a guarded no-op: when the bridge
interface does not exist, Stop returns the error
`The network is already stopped` and performs no side effect. -/
theorem networkStop_guard (n : NetInfo) (env : StopEnv) (h : env.isRunning = false) :
    networkStop n env = (.error "The network is already stopped", []) := by
  unfold networkStop
  rw [h]
  simp

/-- Witness for C10 at a concrete stopped network. -/
theorem networkStop_guard_witness :
    networkStop ⟨"lxdbr0", []⟩
        ⟨false, fun _ => true, fun _ => true, true, true, some []⟩ =
      (.error "The network is already stopped", []) :=
  networkStop_guard ⟨"lxdbr0", []⟩
    ⟨false, fun _ => true, fun _ => true, true, true, some []⟩ rfl

/-! ## Network.Update (lxd/network/network.go lines 1139-1276)

The kernel-facing effect of `setup` is abstracted to a `Kernel` state: a
successful `setup` run with the current in-memory config `c` converges the
kernel to `Kernel.converged c` (the argument passed for the previous config
only adds idempotent firewall clears), a failing run leaves
`Kernel.partialSetup c`.  Whether a `setup` run with config `c` succeeds is
an environment function of `c`, matching the source where setup failures
are determined by the config and the (fixed) host environment. -/

structure NetworkPut where
  config : Config
  description : String
  deriving Repr, DecidableEq

inductive Kernel
  | converged (cfg : Config)
  | partialSetup (cfg : Config)
  | stopped
  | partialStop
  deriving Repr, DecidableEq

structure NetSt where
  config : Config
  description : String
  dbConfig : Config
  dbDescription : String
  kernel : Kernel
  deriving Repr, DecidableEq

structure UpdEnv where
  /-- Modelled from the spec: `fillAuto` (not under the covered source);
  spec section 4.6 step 1, backfill of auto fields such as
  `fan.underlay_subnet`. -/
  fillAuto : Config → Except GoError Config
  isRunning : Bool
  stopOk : Bool
  setupOk : Config → Bool
  notifierOk : Bool
  hookOk : Bool
  dbOk : Bool
  detachOk : Bool
  devPathExists : String → Bool

structure UpdTrace where
  setupCalls : List Config := []
  stopCalls : Nat := 0
  notified : List NetworkPut := []
  dbWrites : List (String × Config) := []
  detaches : List String := []
  deriving Repr, DecidableEq

/-- The two diff loops of `Network.Update` (lines 1174-1199): changed keys
in first-seen order and the user-only flag. -/
def diffKeys (oldC newC : Config) : List String × Bool :=
  let step := fun (acc : List String × Bool) (key : String) =>
    if oldC.get key ≠ newC.get key then
      let userOnly := if ¬ goHasPre key "user." then false else acc.2
      if ¬ stringInSlice key acc.1 then (acc.1 ++ [key], userOnly) else (acc.1, userOnly)
    else acc
  (oldC.keys ++ newC.keys).foldl step ([], true)

/-- The deferred revert closure of `Network.Update` (lines 1160-1172):
restore config and description, write them back to the store (the error of
this write is ignored by the source), and re-run `setup` with the restored
config. -/
def applyUndo (env : UpdEnv) (oldConfig : Config) (oldDescription : String)
    (st : NetSt) (tr : UpdTrace) : NetSt × UpdTrace :=
  let st1 := { st with config := oldConfig, description := oldDescription }
  let st2 := if env.dbOk then
      { st1 with dbConfig := oldConfig, dbDescription := oldDescription }
    else st1
  let st3 := if env.setupOk oldConfig then { st2 with kernel := .converged oldConfig }
    else { st2 with kernel := .partialSetup oldConfig }
  (st3, { tr with
      setupCalls := tr.setupCalls ++ [oldConfig],
      dbWrites := tr.dbWrites ++ [(oldDescription, oldConfig)] })

/-- External interfaces detached by `Network.Update` (lines 1215-1235):
entries of the old list, trimmed, that are non-empty, absent from the new
list and still present under /sys/class/net. -/
def detachList (oldConfig newConfig : Config) (env : UpdEnv) : List String :=
  let devices := (goSplit (newConfig.get "bridge.external_interfaces") ',').map goTrimSpace
  ((goSplit (oldConfig.get "bridge.external_interfaces") ',').map goTrimSpace).filter
    fun dev => dev ≠ "" ∧ ¬ stringInSlice dev devices ∧ env.devPathExists dev

/-- A failing return of `Network.Update`: the deferred closure runs before
the error is handed back. -/
def updFail (env : UpdEnv) (oldC : Config) (oldD : String) (e : GoError)
    (st : NetSt) (tr : UpdTrace) : Except GoError Unit × NetSt × UpdTrace :=
  let u := applyUndo env oldC oldD st tr
  (.error e, u.1, u.2)

/-- `Network.Update` lines 1264-1270: the final setup call for an
effective change.  `oldC`/`oldD` are the snapshots captured for the
deferred closure. -/
def updSetupStep (env : UpdEnv) (st3 : NetSt) (tr4 : UpdTrace) (newConfig : Config)
    (userOnly : Bool) (oldC : Config) (oldD : String) :
    Except GoError Unit × NetSt × UpdTrace :=
  if ¬ userOnly then
    let tr5 := { tr4 with setupCalls := tr4.setupCalls ++ [newConfig] }
    if env.setupOk newConfig then
      (.ok (), { st3 with kernel := .converged newConfig }, tr5)
    else
      updFail env oldC oldD "setup failed" { st3 with kernel := .partialSetup newConfig } tr5
  else (.ok (), st3, tr4)

/-- `Network.Update` lines 1242-1262: notify the peers (policy all) with
the filled-in put and update the store, when not acting as a notification
recipient. -/
def updNotifyStep (env : UpdEnv) (st2 : NetSt) (tr2 : UpdTrace) (notify : Bool)
    (newConfig : Config) (newDesc : String) (userOnly : Bool)
    (oldC : Config) (oldD : String) : Except GoError Unit × NetSt × UpdTrace :=
  if ¬ notify ∧ ¬ env.notifierOk then
    updFail env oldC oldD "notifier construction failed" st2 tr2
  else
    let tr3 := if ¬ notify then { tr2 with notified := [⟨newConfig, newDesc⟩] } else tr2
    if ¬ notify ∧ ¬ env.hookOk then
      updFail env oldC oldD "notifier hook failed" st2 tr3
    else if ¬ notify ∧ ¬ env.dbOk then
      updFail env oldC oldD "database update failed" st2
        { tr3 with dbWrites := tr3.dbWrites ++ [(newDesc, newConfig)] }
    else
      let st3 := if ¬ notify then
          { st2 with dbConfig := newConfig, dbDescription := newDesc }
        else st2
      let tr4 := if ¬ notify then
          { tr3 with dbWrites := tr3.dbWrites ++ [(newDesc, newConfig)] }
        else tr3
      updSetupStep env st3 tr4 newConfig userOnly oldC oldD

/-- `Network.Update` lines 1215-1240: detach removed external interfaces
when the bridge is (still) running, then apply the new config and
description to the struct. -/
def updDetachStep (env : UpdEnv) (st1 : NetSt) (tr1 : UpdTrace) (running1 : Bool)
    (newNetwork : NetworkPut) (notify : Bool) (newConfig : Config)
    (changed : List String) (userOnly : Bool) (oldC : Config) (oldD : String) :
    Except GoError Unit × NetSt × UpdTrace :=
  let needDetach :=
    ¬ userOnly = true ∧ stringInSlice "bridge.external_interfaces" changed = true ∧
      running1 = true
  let dlist := detachList oldC newConfig env
  if needDetach ∧ ¬ dlist = [] ∧ ¬ env.detachOk = true then
    updFail env oldC oldD "detach failed" st1 { tr1 with detaches := dlist.take 1 }
  else
    let tr2 := if needDetach then { tr1 with detaches := dlist } else tr1
    let st2 := { st1 with config := newConfig, description := newNetwork.description }
    updNotifyStep env st2 tr2 notify newConfig newNetwork.description userOnly oldC oldD

/-- `Network.Update` lines 1207-1213: stop the bridge when `bridge.driver`
changed and the network is running; after a successful stop the bridge
interface is gone, so the later `IsRunning` query yields false. -/
def updStopStep (env : UpdEnv) (st0 : NetSt) (newNetwork : NetworkPut) (notify : Bool)
    (newConfig : Config) (changed : List String) (userOnly : Bool) :
    Except GoError Unit × NetSt × UpdTrace :=
  let needStop :=
    ¬ userOnly = true ∧ stringInSlice "bridge.driver" changed = true ∧ env.isRunning = true
  if needStop ∧ ¬ env.stopOk = true then
    updFail env st0.config st0.description "stop failed"
      { st0 with kernel := .partialStop } { stopCalls := 1 }
  else
    updDetachStep env
      (if needStop then { st0 with kernel := .stopped } else st0)
      (if needStop then { stopCalls := 1 } else {})
      (if needStop then false else env.isRunning)
      newNetwork notify newConfig changed userOnly st0.config st0.description

/-- Body of `Network.Update` after the auto-fill of the new config (lines
1147-1275): snapshot, diff, no-change early return (on which the deferred
closure still runs), then the stop/detach/notify/setup steps. -/
def updMain (env : UpdEnv) (st0 : NetSt) (newNetwork : NetworkPut) (notify : Bool)
    (newConfig : Config) : Except GoError Unit × NetSt × UpdTrace :=
  let dk := diffKeys st0.config newConfig
  if dk.1 = [] ∧ newNetwork.description = st0.description then
    let u := applyUndo env st0.config st0.description st0 {}
    (.ok (), u.1, u.2)
  else
    updStopStep env st0 newNetwork notify newConfig dk.1 dk.2

/-- `Network.Update`. -/
def networkUpdate (env : UpdEnv) (st0 : NetSt) (newNetwork : NetworkPut) (notify : Bool) :
    Except GoError Unit × NetSt × UpdTrace :=
  match env.fillAuto newNetwork.config with
  | .error e => (.error e, st0, {})
  | .ok newConfig => updMain env st0 newNetwork notify newConfig

theorem applyUndo_restores (env : UpdEnv) (oldC : Config) (oldD : String)
    (st : NetSt) (tr : UpdTrace)
    (hsetup : env.setupOk oldC = true)
    (hdb : (st.dbConfig = oldC ∧ st.dbDescription = oldD) ∨ env.dbOk = true) :
    (applyUndo env oldC oldD st tr).1 =
      { config := oldC, description := oldD, dbConfig := oldC, dbDescription := oldD,
        kernel := .converged oldC } := by
  obtain ⟨c, d, dbc, dbd, k⟩ := st
  rcases hdb with ⟨h1, h2⟩ | h
  · simp only at h1 h2
    subst h1
    subst h2
    by_cases hdbok : env.dbOk <;> simp [applyUndo, hdbok, hsetup]
  · simp [applyUndo, h, hsetup]



theorem updFail_restores (env : UpdEnv) (oldC : Config) (oldD : String) (e0 : GoError)
    (stx : NetSt) (trx : UpdTrace)
    (hsetup : env.setupOk oldC = true)
    (hdb : (stx.dbConfig = oldC ∧ stx.dbDescription = oldD) ∨ env.dbOk = true) :
    ∀ e st tr, updFail env oldC oldD e0 stx trx = (e, st, tr) →
      st.config = oldC ∧ st.description = oldD ∧
      st.dbConfig = oldC ∧ st.dbDescription = oldD ∧
      st.kernel = .converged oldC := by
  intro e st tr h
  unfold updFail at h
  rw [Prod.mk.injEq, Prod.mk.injEq] at h
  obtain ⟨-, hst, -⟩ := h
  subst hst
  rw [applyUndo_restores env oldC oldD stx trx hsetup hdb]
  exact ⟨rfl, rfl, rfl, rfl, rfl⟩

theorem updSetupStep_restores (env : UpdEnv) (st3 : NetSt) (tr4 : UpdTrace)
    (newConfig : Config) (userOnly : Bool) (oldC : Config) (oldD : String)
    (hsetup : env.setupOk oldC = true)
    (hdb : (st3.dbConfig = oldC ∧ st3.dbDescription = oldD) ∨ env.dbOk = true) :
    ∀ e st tr, updSetupStep env st3 tr4 newConfig userOnly oldC oldD = (.error e, st, tr) →
      st.config = oldC ∧ st.description = oldD ∧
      st.dbConfig = oldC ∧ st.dbDescription = oldD ∧
      st.kernel = .converged oldC := by
  intro e st tr h
  unfold updSetupStep at h
  split at h
  · dsimp only at h
    split at h
    · rw [Prod.mk.injEq] at h
      exact absurd h.1 (by simp)
    · exact updFail_restores env oldC oldD _ _ _ hsetup (by simpa using hdb) _ st tr h
  · rw [Prod.mk.injEq] at h
    exact absurd h.1 (by simp)

theorem updNotifyStep_restores (env : UpdEnv) (st2 : NetSt) (tr2 : UpdTrace) (notify : Bool)
    (newConfig : Config) (newDesc : String) (userOnly : Bool) (oldC : Config) (oldD : String)
    (hsetup : env.setupOk oldC = true)
    (hdb : (st2.dbConfig = oldC ∧ st2.dbDescription = oldD) ∨ env.dbOk = true) :
    ∀ e st tr,
      updNotifyStep env st2 tr2 notify newConfig newDesc userOnly oldC oldD =
        (.error e, st, tr) →
      st.config = oldC ∧ st.description = oldD ∧
      st.dbConfig = oldC ∧ st.dbDescription = oldD ∧
      st.kernel = .converged oldC := by
  intro e st tr h
  unfold updNotifyStep at h
  split at h
  · exact updFail_restores env oldC oldD _ _ _ hsetup hdb _ st tr h
  · dsimp only at h
    split at h
    · exact updFail_restores env oldC oldD _ _ _ hsetup hdb _ st tr h
    · split at h
      · exact updFail_restores env oldC oldD _ _ _ hsetup hdb _ st tr h
      · rename_i hdbpass
        refine updSetupStep_restores env _ _ newConfig userOnly oldC oldD hsetup ?_ _ st tr h
        by_cases hn : notify = true
        · have : ¬ (¬ notify = true) := by simp [hn]
          rw [if_neg this]
          exact hdb
        · have hdbok : env.dbOk = true := by
            by_contra hdbno
            simp only [Bool.not_eq_true] at hdbno
            exact hdbpass ⟨by simp [hn], by simp [hdbno]⟩
          exact Or.inr hdbok

theorem updDetachStep_restores (env : UpdEnv) (st1 : NetSt) (tr1 : UpdTrace)
    (running1 : Bool) (newNetwork : NetworkPut) (notify : Bool) (newConfig : Config)
    (changed : List String) (userOnly : Bool) (oldC : Config) (oldD : String)
    (hsetup : env.setupOk oldC = true)
    (hdb : (st1.dbConfig = oldC ∧ st1.dbDescription = oldD) ∨ env.dbOk = true) :
    ∀ e st tr,
      updDetachStep env st1 tr1 running1 newNetwork notify newConfig changed userOnly
        oldC oldD = (.error e, st, tr) →
      st.config = oldC ∧ st.description = oldD ∧
      st.dbConfig = oldC ∧ st.dbDescription = oldD ∧
      st.kernel = .converged oldC := by
  intro e st tr h
  unfold updDetachStep at h
  dsimp only at h
  split at h
  · refine updFail_restores env oldC oldD _ _ _ hsetup ?_ _ st tr h
    exact hdb
  · refine updNotifyStep_restores env _ _ notify newConfig newNetwork.description userOnly
      oldC oldD hsetup ?_ _ st tr h
    exact hdb

theorem updStopStep_restores (env : UpdEnv) (st0 : NetSt) (newNetwork : NetworkPut)
    (notify : Bool) (newConfig : Config) (changed : List String) (userOnly : Bool)
    (hsetup : env.setupOk st0.config = true)
    (hdbc : st0.dbConfig = st0.config) (hdbd : st0.dbDescription = st0.description) :
    ∀ e st tr,
      updStopStep env st0 newNetwork notify newConfig changed userOnly = (.error e, st, tr) →
      st.config = st0.config ∧ st.description = st0.description ∧
      st.dbConfig = st0.config ∧ st.dbDescription = st0.description ∧
      st.kernel = .converged st0.config := by
  intro e st tr h
  unfold updStopStep at h
  dsimp only at h
  split at h
  · refine updFail_restores env st0.config st0.description _ _ _ hsetup ?_ _ st tr h
    exact Or.inl ⟨hdbc, hdbd⟩
  · refine updDetachStep_restores env _ _ _ newNetwork notify newConfig changed userOnly
      st0.config st0.description hsetup ?_ _ st tr h
    split
    · exact Or.inl ⟨hdbc, hdbd⟩
    · exact Or.inl ⟨hdbc, hdbd⟩

/-- C1: compensation on failed update.  If Update of a new config over a
network whose in-memory config, store record and kernel state all come from
config A fails at any internal step, then the returned state has in-memory
config and description, store record and kernel state equal to the A
versions, the kernel having been re-converged by a setup run with A. -/
theorem update_compensation (env : UpdEnv) (st0 : NetSt) (put : NetworkPut) (notify : Bool)
    (hdbc : st0.dbConfig = st0.config) (hdbd : st0.dbDescription = st0.description)
    (hker : st0.kernel = .converged st0.config)
    (hsetup : env.setupOk st0.config = true) :
    ∀ e st tr, networkUpdate env st0 put notify = (.error e, st, tr) →
      st.config = st0.config ∧ st.description = st0.description ∧
      st.dbConfig = st0.config ∧ st.dbDescription = st0.description ∧
      st.kernel = .converged st0.config := by
  intro e st tr h
  cases hfill : env.fillAuto put.config with
  | error e2 =>
    simp only [networkUpdate, hfill] at h
    rw [Prod.mk.injEq, Prod.mk.injEq] at h
    obtain ⟨-, hst, -⟩ := h
    subst hst
    exact ⟨rfl, rfl, hdbc, hdbd, hker⟩
  | ok newConfig =>
    simp only [networkUpdate, hfill] at h
    unfold updMain at h
    dsimp only at h
    split at h
    · rw [Prod.mk.injEq] at h
      exact absurd h.1 (by simp)
    · exact updStopStep_restores env st0 put notify newConfig _ _ hsetup hdbc hdbd
        _ st tr h
/-- Witness for C1: a concrete update that fails at the notifier
construction step is fully compensated. -/
theorem update_compensation_witness :
    networkUpdate
        ⟨fun c => .ok c, false, true, fun _ => true, false, true, true, true, fun _ => false⟩
        ⟨[("ipv4.address", "none")], "d", [("ipv4.address", "none")], "d",
          .converged [("ipv4.address", "none")]⟩
        ⟨[("ipv4.address", "10.0.0.1/24")], "d"⟩ false =
      (.error "notifier construction failed",
        ⟨[("ipv4.address", "none")], "d", [("ipv4.address", "none")], "d",
          .converged [("ipv4.address", "none")]⟩,
        ⟨[[("ipv4.address", "none")]], 0, [], [("d", [("ipv4.address", "none")])], []⟩) ∧
    ([("ipv4.address", "none")] : Config) = [("ipv4.address", "none")] ∧
    "d" = "d" ∧ ([("ipv4.address", "none")] : Config) = [("ipv4.address", "none")] ∧
    "d" = "d" ∧ Kernel.converged [("ipv4.address", "none")] =
      Kernel.converged [("ipv4.address", "none")] := by
  refine ⟨by decide, ?_⟩
  exact update_compensation
    ⟨fun c => .ok c, false, true, fun _ => true, false, true, true, true, fun _ => false⟩
    ⟨[("ipv4.address", "none")], "d", [("ipv4.address", "none")], "d",
      .converged [("ipv4.address", "none")]⟩
    ⟨[("ipv4.address", "10.0.0.1/24")], "d"⟩ false rfl rfl rfl rfl
    "notifier construction failed"
    ⟨[("ipv4.address", "none")], "d", [("ipv4.address", "none")], "d",
      .converged [("ipv4.address", "none")]⟩
    ⟨[[("ipv4.address", "none")]], 0, [], [("d", [("ipv4.address", "none")])], []⟩
    (by decide)

theorem updFail_fst (env : UpdEnv) (oldC : Config) (oldD : String) (e0 : GoError)
    (stx : NetSt) (trx : UpdTrace) :
    ∀ r st tr, updFail env oldC oldD e0 stx trx = (r, st, tr) → r = .error e0 := by
  intro r st tr h
  unfold updFail at h
  rw [Prod.mk.injEq] at h
  exact h.1.symm

theorem updSetupStep_userOnly (env : UpdEnv) (st3 : NetSt) (tr4 : UpdTrace)
    (newConfig oldC : Config) (oldD : String) :
    updSetupStep env st3 tr4 newConfig true oldC oldD = (.ok (), st3, tr4) := by
  unfold updSetupStep
  rw [if_neg (by simp)]

theorem updNotifyStep_userOnly_trace (env : UpdEnv) (st2 : NetSt) (tr2 : UpdTrace)
    (notify : Bool) (newConfig : Config) (newDesc : String) (oldC : Config) (oldD : String) :
    ∀ r st tr,
      updNotifyStep env st2 tr2 notify newConfig newDesc true oldC oldD = (r, st, tr) →
      r = .ok () → tr.setupCalls = tr2.setupCalls ∧ tr.stopCalls = tr2.stopCalls := by
  intro r st tr h hok
  unfold updNotifyStep at h
  split at h
  · rw [updFail_fst env oldC oldD _ _ _ r st tr h] at hok
    exact absurd hok (by simp)
  · dsimp only at h
    split at h
    · rw [updFail_fst env oldC oldD _ _ _ r st tr h] at hok
      exact absurd hok (by simp)
    · split at h
      · rw [updFail_fst env oldC oldD _ _ _ r st tr h] at hok
        exact absurd hok (by simp)
      · rw [updSetupStep_userOnly, Prod.mk.injEq, Prod.mk.injEq] at h
        obtain ⟨-, -, htr⟩ := h
        subst htr
        constructor <;> (split <;> rfl)

theorem updDetachStep_userOnly_trace (env : UpdEnv) (st1 : NetSt) (tr1 : UpdTrace)
    (running1 : Bool) (newNetwork : NetworkPut) (notify : Bool) (newConfig : Config)
    (changed : List String) (oldC : Config) (oldD : String) :
    ∀ r st tr,
      updDetachStep env st1 tr1 running1 newNetwork notify newConfig changed true
        oldC oldD = (r, st, tr) →
      r = .ok () → tr.setupCalls = tr1.setupCalls ∧ tr.stopCalls = tr1.stopCalls := by
  intro r st tr h hok
  unfold updDetachStep at h
  dsimp only at h
  rw [if_neg (by simp)] at h
  rw [if_neg (by simp)] at h
  exact updNotifyStep_userOnly_trace env _ tr1 notify newConfig newNetwork.description
    oldC oldD r st tr h hok

theorem updStopStep_userOnly_trace (env : UpdEnv) (st0 : NetSt) (newNetwork : NetworkPut)
    (notify : Bool) (newConfig : Config) (changed : List String) :
    ∀ r st tr,
      updStopStep env st0 newNetwork notify newConfig changed true = (r, st, tr) →
      r = .ok () → tr.setupCalls = [] ∧ tr.stopCalls = 0 := by
  intro r st tr h hok
  unfold updStopStep at h
  dsimp only at h
  rw [if_neg (by simp)] at h
  rw [if_neg (by simp), if_neg (by simp), if_neg (by simp)] at h
  exact updDetachStep_userOnly_trace env st0 {} env.isRunning newNetwork notify newConfig
    changed st0.config st0.description r st tr h hok

/-- C7 (amended): a non-failing Update whose changed keys are all
user-prefixed calls neither setup nor Stop; an Update with no changed key
and unchanged description returns success without notifying peers, but the
deferred revert closure still writes the store record and re-runs setup. -/
theorem user_only_update (env : UpdEnv) (st0 : NetSt) (put : NetworkPut)
    (notify : Bool) (newConfig : Config)
    (hfill : env.fillAuto put.config = .ok newConfig) :
    ∀ r st tr, networkUpdate env st0 put notify = (r, st, tr) →
      ((diffKeys st0.config newConfig).1 ≠ [] →
        (diffKeys st0.config newConfig).2 = true →
        r = .ok () →
        tr.setupCalls = [] ∧ tr.stopCalls = 0) ∧
      ((diffKeys st0.config newConfig).1 = [] → put.description = st0.description →
        r = .ok () ∧ tr.notified = [] ∧ tr.setupCalls = [st0.config] ∧
        tr.dbWrites = [(st0.description, st0.config)]) := by
  intro r st tr h
  simp only [networkUpdate, hfill] at h
  unfold updMain at h
  dsimp only at h
  constructor
  · intro hchg huser hok
    rw [if_neg (by intro hc; exact hchg hc.1)] at h
    rw [huser] at h
    exact updStopStep_userOnly_trace env st0 put notify newConfig _ r st tr h hok
  · intro hchg hdesc
    rw [if_pos ⟨hchg, hdesc⟩] at h
    unfold applyUndo at h
    dsimp only at h
    rw [Prod.mk.injEq, Prod.mk.injEq] at h
    obtain ⟨hr, -, htr⟩ := h
    subst htr
    exact ⟨hr.symm, rfl, by simp, by simp⟩

/-- Counterexample for C7 as stated: an Update that changes nothing (all
differing keys vacuously user-prefixed, description unchanged) succeeds but
the deferred closure still runs setup and writes the store. -/
theorem user_only_update_counterexample :
    (networkUpdate
        ⟨fun c => .ok c, false, true, fun _ => true, true, true, true, true, fun _ => false⟩
        ⟨[("user.x", "1")], "d", [("user.x", "1")], "d", .converged [("user.x", "1")]⟩
        ⟨[("user.x", "1")], "d"⟩ false).1 = .ok () ∧
    (networkUpdate
        ⟨fun c => .ok c, false, true, fun _ => true, true, true, true, true, fun _ => false⟩
        ⟨[("user.x", "1")], "d", [("user.x", "1")], "d", .converged [("user.x", "1")]⟩
        ⟨[("user.x", "1")], "d"⟩ false).2.2.setupCalls = [[("user.x", "1")]] ∧
    (networkUpdate
        ⟨fun c => .ok c, false, true, fun _ => true, true, true, true, true, fun _ => false⟩
        ⟨[("user.x", "1")], "d", [("user.x", "1")], "d", .converged [("user.x", "1")]⟩
        ⟨[("user.x", "1")], "d"⟩ false).2.2.dbWrites = [("d", [("user.x", "1")])] := by
  decide

/-- Witness for C7 (amended), both conjuncts at concrete inputs: a pure
user-key change succeeds with no setup or Stop call, and a no-change update
succeeds while the closure re-runs setup and rewrites the store. -/
theorem user_only_update_witness :
    ((networkUpdate
        ⟨fun c => .ok c, false, true, fun _ => true, true, true, true, true, fun _ => false⟩
        ⟨[("user.x", "1")], "d", [("user.x", "1")], "d", .converged [("user.x", "1")]⟩
        ⟨[("user.x", "2")], "d"⟩ false).2.2.setupCalls = [] ∧
      (networkUpdate
        ⟨fun c => .ok c, false, true, fun _ => true, true, true, true, true, fun _ => false⟩
        ⟨[("user.x", "1")], "d", [("user.x", "1")], "d", .converged [("user.x", "1")]⟩
        ⟨[("user.x", "2")], "d"⟩ false).2.2.stopCalls = 0) ∧
    ((networkUpdate
        ⟨fun c => .ok c, false, true, fun _ => true, true, true, true, true, fun _ => false⟩
        ⟨[("user.x", "1")], "d", [("user.x", "1")], "d", .converged [("user.x", "1")]⟩
        ⟨[("user.x", "1")], "d"⟩ false).1 = .ok () ∧
      (networkUpdate
        ⟨fun c => .ok c, false, true, fun _ => true, true, true, true, true, fun _ => false⟩
        ⟨[("user.x", "1")], "d", [("user.x", "1")], "d", .converged [("user.x", "1")]⟩
        ⟨[("user.x", "1")], "d"⟩ false).2.2.notified = []) := by
  constructor
  · exact (user_only_update
      ⟨fun c => .ok c, false, true, fun _ => true, true, true, true, true, fun _ => false⟩
      ⟨[("user.x", "1")], "d", [("user.x", "1")], "d", .converged [("user.x", "1")]⟩
      ⟨[("user.x", "2")], "d"⟩ false [("user.x", "2")] rfl _ _ _ rfl).1
      (by decide) (by decide) (by decide)
  · have := (user_only_update
      ⟨fun c => .ok c, false, true, fun _ => true, true, true, true, true, fun _ => false⟩
      ⟨[("user.x", "1")], "d", [("user.x", "1")], "d", .converged [("user.x", "1")]⟩
      ⟨[("user.x", "1")], "d"⟩ false [("user.x", "1")] rfl _ _ _ rfl).2
      (by decide) (by decide)
    exact ⟨this.1, this.2.1⟩

/-! ## common.update (lxd/network/driver_common.go lines 236-280) -/

/-- Modelled from the spec: `db.NodeSpecificNetworkConfig` (the list lives
in lxd/db, not under the covered source).  Spec section 6: the keys
stripped before cross-member replication are `bridge.external_interfaces`,
the `bgp.peers.*` family and any `volatile.*` keys. -/
def isNodeSpecificKey (k : String) : Bool :=
  k == "bridge.external_interfaces" || goHasPre k "bgp.peers." || goHasPre k "volatile."

structure CommonNetSt where
  config : Config
  description : String
  dbConfig : Config
  dbDescription : String
  deriving Repr, DecidableEq

structure CommonUpdEnv where
  notifierOk : Bool
  hookOk : Bool
  dbOk : Bool

structure CommonUpdTrace where
  notified : List NetworkPut := []
  dbWrites : List (String × Config) := []
  deriving Repr, DecidableEq

/-- `common.update`: apply the new config to the struct; when the update is
not itself a cluster notification, notify all other members (stripping the
node-specific keys from the forwarded put) when no target node is given,
then update the store. -/
def commonUpdate (env : CommonUpdEnv) (st : CommonNetSt) (applyNetwork : NetworkPut)
    (targetNode : String) (clientTypeNotifier : Bool) :
    Except GoError Unit × CommonNetSt × CommonUpdTrace :=
  let st1 := { st with description := applyNetwork.description, config := applyNetwork.config }
  if ¬ clientTypeNotifier then
    let dbTrace := [(applyNetwork.description, applyNetwork.config)]
    let stDb := { st1 with
      dbConfig := applyNetwork.config, dbDescription := applyNetwork.description }
    if targetNode = "" then
      if ¬ env.notifierOk then (.error "notifier construction failed", st1, {})
      else
        let sendNetwork : NetworkPut :=
          ⟨applyNetwork.config.filter fun kv => !(isNodeSpecificKey kv.1),
            applyNetwork.description⟩
        if ¬ env.hookOk then (.error "notify failed", st1, { notified := [sendNetwork] })
        else if env.dbOk then
          (.ok (), stDb, { notified := [sendNetwork], dbWrites := dbTrace })
        else
          (.error "database update failed", st1,
            { notified := [sendNetwork], dbWrites := dbTrace })
    else if env.dbOk then
      (.ok (), stDb, { dbWrites := dbTrace })
    else
      (.error "database update failed", st1, { dbWrites := dbTrace })
  else (.ok (), st1, {})

/-- C3 (amended): replication masking holds for the common driver update
path: every put handed to the cluster notifier by a non-notification
`common.update` carries none of the node-specific keys.  (The legacy
`Network.Update` of network.go forwards the put unmasked; see the
counterexample.) -/
theorem replication_masking (env : CommonUpdEnv) (st : CommonNetSt)
    (applyNetwork : NetworkPut) (targetNode : String) :
    ∀ r st2 tr, commonUpdate env st applyNetwork targetNode false = (r, st2, tr) →
      ∀ put ∈ tr.notified, ∀ k ∈ put.config.keys, isNodeSpecificKey k = false := by
  intro r st2 tr h put hput k hk
  unfold commonUpdate at h
  dsimp only at h
  rw [if_pos (by simp)] at h
  have hmem : put.config = applyNetwork.config.filter fun kv => !(isNodeSpecificKey kv.1) := by
    split at h
    · split at h
      · rw [Prod.mk.injEq, Prod.mk.injEq] at h
        obtain ⟨-, -, htr⟩ := h
        subst htr
        simp at hput
      · split at h
        · rw [Prod.mk.injEq, Prod.mk.injEq] at h
          obtain ⟨-, -, htr⟩ := h
          subst htr
          simp at hput
          rw [hput]
        · split at h <;>
          · rw [Prod.mk.injEq, Prod.mk.injEq] at h
            obtain ⟨-, -, htr⟩ := h
            subst htr
            simp at hput
            rw [hput]
    · split at h <;>
      · rw [Prod.mk.injEq, Prod.mk.injEq] at h
        obtain ⟨-, -, htr⟩ := h
        subst htr
        simp at hput
  rw [hmem] at hk
  unfold Config.keys at hk
  rw [List.mem_map] at hk
  obtain ⟨kv, hkv, hfst⟩ := hk
  rw [List.mem_filter] at hkv
  have := hkv.2
  rw [Bool.not_eq_eq_eq_not] at this
  rw [← hfst]
  simpa using this

/-- Counterexample for C3 as stated: the legacy `Network.Update` forwards
the new config to the peers unmasked, node-specific keys included. -/
theorem replication_masking_counterexample :
    (networkUpdate
        ⟨fun c => .ok c, false, true, fun _ => true, true, true, true, true, fun _ => false⟩
        ⟨[], "d", [], "d", .converged []⟩
        ⟨[("bridge.external_interfaces", "eth0")], "d"⟩ false).2.2.notified =
      [⟨[("bridge.external_interfaces", "eth0")], "d"⟩] ∧
    isNodeSpecificKey "bridge.external_interfaces" = true := by
  decide

/-- Witness for C3 (amended): a concrete common.update forwards only the
non-node-specific key. -/
theorem replication_masking_witness :
    (commonUpdate ⟨true, true, true⟩ ⟨[], "d", [], "d"⟩
        ⟨[("ipv4.address", "10.0.0.1/24"), ("volatile.x", "y")], "d"⟩ "" false).2.2.notified =
      [⟨[("ipv4.address", "10.0.0.1/24")], "d"⟩] ∧
    isNodeSpecificKey "ipv4.address" = false := by
  refine ⟨by decide, ?_⟩
  exact replication_masking ⟨true, true, true⟩ ⟨[], "d", [], "d"⟩
    ⟨[("ipv4.address", "10.0.0.1/24"), ("volatile.x", "y")], "d"⟩ "" _ _ _ rfl
    ⟨[("ipv4.address", "10.0.0.1/24")], "d"⟩ (by decide) "ipv4.address" (by decide)

/-! ## Network.setup (lxd/network/network.go lines 172-1053)

Every external call (RunCommand, sysctl, firewall, file system, dnsmasq and
forkdns subprocesses) is mediated by a success oracle in `SetupEnv`, so that
the control flow of the source, the early returns included, is preserved
exactly.  The dnsmasq command line is built as in the source and returned in
`SetupOut` together with whether the dnsmasq process was started. -/

/-- Result of `util.SysctlSet`. -/
inductive SysctlRes
  | ok
  | notExist
  | err
  deriving Repr, DecidableEq

/-- Result of `subprocess.Process.Stop` for the forkdns child. -/
inductive SubprocStop
  | ok
  | notRunning
  | err
  deriving Repr, DecidableEq

structure SetupEnv where
  mockMode : Bool
  pathExists : String → Bool
  mkdirOk : String → Bool
  isRunning : Bool
  ovsPresent : Bool
  dnsmasqPresent : Bool
  run : List String → Bool
  sysctl : String → String → SysctlRes
  ifacesRes : Option (List GoIface)
  fwOk : String → Bool
  bootRoutes4 : Option (List String)
  bootRoutes6 : Option (List String)
  dnsmasqVer : Option (List Nat)
  debug : Bool
  devMTU : String → Option Nat
  attachOk : String → String → Bool
  procV6Entries : Option (List (String × Option String))
  clusterAddr : Except GoError String
  unprivUser : String
  writeOk : Bool
  staticOk : Bool
  procNewOk : Bool
  procStartOk : Bool
  procSaveOk : Bool
  forkdnsNewOk : Bool
  forkdnsStartOk : Bool
  forkdnsSaveOk : Bool
  removeOk : String → Bool
  fileCreateOk : Bool
  defaultGatewayDev : Except GoError String
  killDnsmasqOk : Bool
  forkdnsImportOk : Bool
  forkdnsStopRes : SubprocStop

/-- `shared.VarPath`. -/
def varPath (parts : List String) : String :=
  String.intercalate "/" parts

/-- Dotted version comparison (`version.DottedVersion.Compare`), needed for
the dnsmasq feature gates. -/
def verGT (a b : List Nat) : Bool :=
  match a, b with
  | [], [] => false
  | [], _ :: _ => false
  | _ :: _, [] => true
  | x :: xs, y :: ys => if x > y then true else if x < y then false else verGT xs ys

/-- Run a list of commands in order, aborting at the first failure. -/
def runAll (env : SetupEnv) : List (List String) → Except GoError Unit
  | [] => .ok ()
  | c :: rest => if env.run c then runAll env rest else .error "RunCommand failed"

/-- Lines 174-225: networks directory, bridge interface creation and the
IPv6 bridge sysctls. -/
def setupBridgeInit (n : NetInfo) (env : SetupEnv) : Except GoError Unit :=
  if ¬ env.pathExists (varPath ["networks", n.name]) ∧
      ¬ env.mkdirOk (varPath ["networks", n.name]) then
    .error "MkdirAll failed"
  else if ¬ env.isRunning ∧ n.config.get "bridge.driver" = "openvswitch" ∧
      ¬ env.ovsPresent then
    .error "Open vSwitch isn't installed on this system"
  else if ¬ env.isRunning ∧ n.config.get "bridge.driver" = "openvswitch" ∧
      ¬ env.run ["ovs-vsctl", "add-br", n.name] then
    .error "ovs-vsctl add-br failed"
  else if ¬ env.isRunning ∧ n.config.get "bridge.driver" ≠ "openvswitch" ∧
      ¬ env.run ["ip", "link", "add", "dev", n.name, "type", "bridge"] then
    .error "ip link add failed"
  else if ¬ stringInSlice (n.config.get "ipv6.address") ["", "none"] then
    if ¬ env.pathExists "/proc/sys/net/ipv6" then
      .error "Network has ipv6.address but kernel IPv6 support is missing"
    else if env.sysctl ("net/ipv6/conf/" ++ n.name ++ "/autoconf") "0" ≠ .ok then
      .error "sysctl autoconf failed"
    else if env.sysctl ("net/ipv6/conf/" ++ n.name ++ "/accept_dad") "0" ≠ .ok then
      .error "sysctl accept_dad failed"
    else .ok ()
  else .ok ()

/-- Lines 227-241: list the host interfaces and delete stale `<name>-`
devices. -/
def setupCleanStale (n : NetInfo) (env : SetupEnv) : Except GoError Unit :=
  match env.ifacesRes with
  | none => .error "net.Interfaces failed"
  | some ifaces =>
    runAll env (((ifaces.map (·.name)).filter fun i => goHasPre i (n.name ++ "-")).map
      fun i => ["ip", "link", "del", "dev", i])

/-- `Network.getTunnels` (lines 1378-1393): tunnel names from the
`tunnel.<name>.*` config keys, first-seen order. -/
def getTunnels (cfg : Config) : List String :=
  cfg.keys.foldl
    (fun acc k =>
      if ¬ goHasPre k "tunnel." then acc
      else
        let f1 := (goSplit k '.').getD 1 ""
        if ¬ stringInSlice f1 acc then acc ++ [f1] else acc)
    []

/-- Lines 243-290: MTU computation, the MTU-pinning dummy device (errors
ignored), MTU and MAC application, bridge up.  Returns the applied MTU. -/
def setupMTU (n : NetInfo) (env : SetupEnv) : Except GoError String :=
  let mtu :=
    if n.config.get "bridge.mtu" ≠ "" then n.config.get "bridge.mtu"
    else if getTunnels n.config ≠ [] then "1400"
    else if n.config.get "bridge.mode" = "fan" then
      if n.config.get "fan.type" = "ipip" then "1480" else "1450"
    else ""
  -- dummy device: every failure in this block is silently ignored
  let mtu2 := if mtu = "" then "1500" else mtu
  if ¬ env.run ["ip", "link", "set", "dev", n.name, "mtu", mtu2] then
    .error "ip link set mtu failed"
  else if n.config.get "bridge.hwaddr" ≠ "" ∧
      ¬ env.run ["ip", "link", "set", "dev", n.name, "address",
        n.config.get "bridge.hwaddr"] then
    .error "ip link set address failed"
  else if ¬ env.run ["ip", "link", "set", "dev", n.name, "up"] then
    .error "ip link set up failed"
  else .ok mtu2

/-- Go `IP.IsGlobalUnicast`. -/
def isGlobalUnicast (ip : IPAddr) : Bool :=
  if ip.length = 4 then
    ¬ (ip = [255, 255, 255, 255] ∨ ip = [0, 0, 0, 0] ∨ ip.headD 0 = 127 ∨
       (224 ≤ ip.headD 0 ∧ ip.headD 0 ≤ 239) ∨
       (ip.headD 0 = 169 ∧ ip.getD 1 0 = 254))
  else if ip.length = 16 then
    ¬ (ip = List.replicate 15 0 ++ [1] ∨ ip = List.replicate 16 0 ∨
       ip.headD 0 = 255 ∨ (ip.headD 0 = 254 ∧ 128 ≤ ip.getD 1 0 ∧ ip.getD 1 0 ≤ 191))
  else false

/-- Lines 292-322: attach the listed external interfaces, rejecting any
with a global unicast address. -/
def externalIfaceUnused (env : SetupEnv) (entry : String) : Option Bool :=
  match env.ifacesRes with
  | none => none
  | some ifaces =>
    match ifaces.find? fun i => i.name == entry with
    | none => none
    | some iface =>
      match iface.addrs with
      | none => some true
      | some addrs =>
        some (¬ addrs.any fun a =>
          match parseCIDR a with
          | some (ip, _) => isGlobalUnicast ip
          | none => false)

def attachExternal (n : NetInfo) (env : SetupEnv) : List String → Except GoError Unit
  | [] => .ok ()
  | entry :: rest =>
    match externalIfaceUnused env entry with
    | none => attachExternal n env rest
    | some unused =>
      if ¬ unused then .error "Only unconfigured network interfaces can be bridged"
      else if ¬ env.attachOk n.name entry then .error "AttachInterface failed"
      else attachExternal n env rest

def setupExternal (n : NetInfo) (env : SetupEnv) : Except GoError Unit :=
  if n.config.get "bridge.external_interfaces" = "" then .ok ()
  else
    attachExternal n env
      (((goSplit (n.config.get "bridge.external_interfaces") ',').map goTrimSpace))

/-- Lines 324-342: clear old IPv4 firewall rules as a function of the new
and previous configs. -/
def setupV4Clear (n : NetInfo) (old : Option Config) (env : SetupEnv) :
    Except GoError Unit :=
  if (n.config.get "ipv4.firewall" = "" ∨ isTrue (n.config.get "ipv4.firewall") ∨
      (∃ o, old = some o ∧ (o.get "ipv4.firewall" = "" ∨ isTrue (o.get "ipv4.firewall")))) ∧
      ¬ (env.fwOk "clear-ipv4-all" ∧ env.fwOk "clear-ipv4-mangle") then
    .error "NetworkClear ipv4 failed"
  else if (isTrue (n.config.get "ipv4.nat") ∨
      (∃ o, old = some o ∧ isTrue (o.get "ipv4.nat"))) ∧
      ¬ env.fwOk "clear-ipv4-nat" then
    .error "NetworkClear ipv4 nat failed"
  else .ok ()

/-- Lines 344-360: snapshot the boot-proto routes, then flush IPv4
addresses and static routes. -/
def setupV4Flush (n : NetInfo) (env : SetupEnv) : Except GoError (List String) :=
  match env.bootRoutes4 with
  | none => .error "bootRoutesV4 failed"
  | some ctRoutes =>
    if ¬ env.run ["ip", "-4", "addr", "flush", "dev", n.name, "scope", "global"] then
      .error "ip -4 addr flush failed"
    else if ¬ env.run ["ip", "-4", "route", "flush", "dev", n.name, "proto", "static"] then
      .error "ip -4 route flush failed"
    else .ok ctRoutes

/-- `Network.HasDHCPv4` (lines 1590-1597). -/
def hasDHCPv4 (cfg : Config) : Bool :=
  cfg.get "ipv4.dhcp" = "" ∨ isTrue (cfg.get "ipv4.dhcp")

/-- `Network.HasDHCPv6` (lines 1599-1609). -/
def hasDHCPv6 (cfg : Config) : Bool :=
  cfg.get "ipv6.dhcp" = "" ∨ isTrue (cfg.get "ipv6.dhcp")

/-- Lines 362-395: IPv4 firewall configuration (DNS overrides and the DHCP
workaround discard their errors in the source; ip forwarding and the
forwarding policy surface theirs). -/
def setupV4Firewall (n : NetInfo) (env : SetupEnv) : Except GoError Unit :=
  if n.config.get "bridge.mode" = "fan" ∨
      ¬ stringInSlice (n.config.get "ipv4.address") ["", "none"] then
    if n.config.get "bridge.mode" = "fan" ∨ n.config.get "ipv4.routing" = "" ∨
        isTrue (n.config.get "ipv4.routing") then
      if env.sysctl "net/ipv4/ip_forward" "1" ≠ .ok then
        .error "sysctl ip_forward failed"
      else if (n.config.get "ipv4.firewall" = "" ∨ isTrue (n.config.get "ipv4.firewall")) ∧
          ¬ env.fwOk "forward-ipv4-accept" then
        .error "NetworkSetupAllowForwarding accept failed"
      else .ok ()
    else
      if (n.config.get "ipv4.firewall" = "" ∨ isTrue (n.config.get "ipv4.firewall")) ∧
          ¬ env.fwOk "forward-ipv4-reject" then
        .error "NetworkSetupAllowForwarding reject failed"
      else .ok ()
  else .ok ()

/-- Lines 397-422: the base dnsmasq command line and the version-gated
options. -/
def baseDnsmasqArgs (n : NetInfo) (env : SetupEnv) : Except GoError (List String) :=
  let args := ["--keep-in-foreground", "--strict-order", "--bind-interfaces",
    "--except-interface=lo", "--no-ping", "--interface=" ++ n.name]
  match env.dnsmasqVer with
  | none => .error "dnsmasq.GetVersion failed"
  | some ver =>
    let args := if verGT ver [2, 79] then args ++ ["--dhcp-rapid-commit"] else args
    let args :=
      if ¬ env.debug ∧ verGT ver [2, 67] then
        args ++ ["--quiet-dhcp", "--quiet-dhcp6", "--quiet-ra"]
      else args
    .ok args

/-- Lines 432-455: the IPv4 dnsmasq options, as the suffix appended to the
command line built so far (the `--dhcp-no-override` membership test of line
435 consults the list as grown by the listen address, as in the source). -/
def setupV4args (n : NetInfo) (args : List String) (ip : IPAddr) (subnet : IPNet) :
    List String :=
  let dListen := ["--listen-address=" ++ ipString ip]
  let dDhcp :=
    if hasDHCPv4 n.config then
      let dOverride :=
        if ¬ stringInSlice "--dhcp-no-override" (args ++ dListen) then
          ["--dhcp-no-override", "--dhcp-authoritative",
            "--dhcp-leasefile=" ++ varPath ["networks", n.name, "dnsmasq.leases"],
            "--dhcp-hostsfile=" ++ varPath ["networks", n.name, "dnsmasq.hosts"]]
        else []
      let dGateway :=
        if n.config.get "ipv4.dhcp.gateway" ≠ "" then
          ["--dhcp-option=3," ++ n.config.get "ipv4.dhcp.gateway"]
        else []
      let expiry :=
        if n.config.get "ipv4.dhcp.expiry" ≠ "" then n.config.get "ipv4.dhcp.expiry"
        else "1h"
      let dRange :=
        if n.config.get "ipv4.dhcp.ranges" ≠ "" then
          ((goSplit (n.config.get "ipv4.dhcp.ranges") ',').map goTrimSpace).flatMap
            fun r => ["--dhcp-range", goDashToComma r ++ "," ++ expiry]
        else
          ["--dhcp-range",
            ipString (GetIP subnet 2) ++ "," ++ ipString (GetIP subnet (-2)) ++ "," ++ expiry]
      dOverride ++ dGateway ++ dRange
    else []
  args ++ dListen ++ dDhcp

/-- Lines 457-501: the effectful remainder of the IPv4 block: add the
address, the NAT rule, static routes, and re-apply the snapshotted boot
routes; the dnsmasq command line passes through unchanged. -/
def setupV4tail (n : NetInfo) (env : SetupEnv) (ctRoutes : List String)
    (args : List String) : Except GoError (List String) :=
  if ¬ env.run ["ip", "-4", "addr", "add", "dev", n.name,
      n.config.get "ipv4.address"] then
    .error "ip -4 addr add failed"
  else if isTrue (n.config.get "ipv4.nat") ∧
      ¬ env.fwOk (if n.config.get "ipv4.nat.order" = "after" then "nat-ipv4-append"
        else "nat-ipv4-prepend") then
    .error "NetworkSetupNAT ipv4 failed"
  else
    match runAll env (if n.config.get "ipv4.routes" ≠ "" then
        ((goSplit (n.config.get "ipv4.routes") ',').map goTrimSpace).map fun r =>
          ["ip", "-4", "route", "add", "dev", n.name, r, "proto", "static"]
      else []) with
    | .error e => .error e
    | .ok _ =>
      match runAll env (ctRoutes.map fun r =>
          ["ip", "-4", "route", "replace", "dev", n.name, "proto", "boot"] ++
            (goSplit r ' ')) with
      | .error e => .error e
      | .ok _ => .ok args

/-- Lines 424-501: IPv4 address configuration; appends the listen address
and DHCPv4 options to the dnsmasq command line and runs the effectful
remainder. -/
def setupV4 (n : NetInfo) (env : SetupEnv) (ctRoutes : List String)
    (args : List String) : Except GoError (List String) :=
  if ¬ stringInSlice (n.config.get "ipv4.address") ["", "none"] then
    match parseCIDR (n.config.get "ipv4.address") with
    | none => .error "invalid ipv4.address CIDR"
    | some (ip, subnet) => setupV4tail n env ctRoutes (setupV4args n args ip subnet)
  else .ok args

/-- Lines 503-534: clear old IPv6 firewall rules, snapshot boot routes,
flush IPv6 addresses and static routes. -/
def setupV6Clear (n : NetInfo) (old : Option Config) (env : SetupEnv) :
    Except GoError Unit :=
  if (n.config.get "ipv6.firewall" = "" ∨ isTrue (n.config.get "ipv6.firewall") ∨
      (∃ o, old = some o ∧ (o.get "ipv6.firewall" = "" ∨ isTrue (o.get "ipv6.firewall")))) ∧
      ¬ env.fwOk "clear-ipv6-all" then
    .error "NetworkClear ipv6 failed"
  else if (isTrue (n.config.get "ipv6.nat") ∨
      (∃ o, old = some o ∧ isTrue (o.get "ipv6.nat"))) ∧
      ¬ env.fwOk "clear-ipv6-nat" then
    .error "NetworkClear ipv6 nat failed"
  else .ok ()

def setupV6Flush (n : NetInfo) (env : SetupEnv) : Except GoError (List String) :=
  match env.bootRoutes6 with
  | none => .error "bootRoutesV6 failed"
  | some ctRoutes =>
    if ¬ env.run ["ip", "-6", "addr", "flush", "dev", n.name, "scope", "global"] then
      .error "ip -6 addr flush failed"
    else if ¬ env.run ["ip", "-6", "route", "flush", "dev", n.name, "proto", "static"] then
      .error "ip -6 route flush failed"
    else .ok ctRoutes

/-- Lines 586-612: walk /proc/sys/net/ipv6/conf, set accept_ra=2 on the
entries currently at 1 and forwarding=1 on all, tolerating missing
entries. -/
def setupV6Routing (env : SetupEnv) : Except GoError Unit :=
  match env.procV6Entries with
  | none => .error "ReadDir /proc/sys/net/ipv6/conf failed"
  | some entries =>
    let raFailed := entries.any fun e =>
      e.2 = some "1\n" ∧
        env.sysctl ("net/ipv6/conf/" ++ e.1 ++ "/accept_ra") "2" = .err
    if raFailed then .error "sysctl accept_ra failed"
    else
      let fwdFailed := entries.any fun e =>
        env.sysctl ("net/ipv6/conf/" ++ e.1 ++ "/forwarding") "1" = .err
      if fwdFailed then .error "sysctl forwarding failed"
      else .ok ()

/-- Lines 544-583: the IPv6 dnsmasq options, as the suffix appended to the
command line built so far (the `--dhcp-no-override` membership test of line
547 consults the list as grown by the listen address, as in the source). -/
def setupV6args (n : NetInfo) (args : List String) (ip : IPAddr) (subnet : IPNet) :
    List String :=
  let dListen := ["--listen-address=" ++ ipString ip, "--enable-ra"]
  let dDhcp :=
    if hasDHCPv6 n.config then
      let dOverride :=
        if ¬ stringInSlice "--dhcp-no-override" (args ++ dListen) then
          ["--dhcp-no-override", "--dhcp-authoritative",
            "--dhcp-leasefile=" ++ varPath ["networks", n.name, "dnsmasq.leases"],
            "--dhcp-hostsfile=" ++ varPath ["networks", n.name, "dnsmasq.hosts"]]
        else []
      let expiry :=
        if n.config.get "ipv6.dhcp.expiry" ≠ "" then n.config.get "ipv6.dhcp.expiry"
        else "1h"
      let dRange :=
        if isTrue (n.config.get "ipv6.dhcp.stateful") then
          if n.config.get "ipv6.dhcp.ranges" ≠ "" then
            ((goSplit (n.config.get "ipv6.dhcp.ranges") ',').map goTrimSpace).flatMap
              fun r => ["--dhcp-range",
                goDashToComma r ++ "," ++ toString subnet.size ++ "," ++ expiry]
          else
            ["--dhcp-range",
              ipString (GetIP subnet 2) ++ "," ++ ipString (GetIP subnet (-1)) ++ "," ++
                toString subnet.size ++ "," ++ expiry]
        else
          ["--dhcp-range", "::,constructor:" ++ n.name ++ ",ra-stateless,ra-names"]
      dOverride ++ dRange
    else
      ["--dhcp-range", "::,constructor:" ++ n.name ++ ",ra-only"]
  args ++ dListen ++ dDhcp

/-- Lines 584-671: the effectful remainder of the IPv6 block: router
advertisement and forwarding sysctls, forwarding policy, address, NAT,
static routes and boot routes; the dnsmasq command line passes through
unchanged. -/
def setupV6tail (n : NetInfo) (env : SetupEnv) (ctRoutes : List String)
    (args : List String) : Except GoError (List String) :=
  let routingRes : Except GoError Unit :=
    if n.config.get "ipv6.routing" = "" ∨ isTrue (n.config.get "ipv6.routing") then
      match setupV6Routing env with
      | .error e => .error e
      | .ok _ =>
        if (n.config.get "ipv6.firewall" = "" ∨ isTrue (n.config.get "ipv6.firewall")) ∧
            ¬ env.fwOk "forward-ipv6-accept" then
          .error "NetworkSetupAllowForwarding accept failed"
        else .ok ()
    else
      if (n.config.get "ipv6.firewall" = "" ∨ isTrue (n.config.get "ipv6.firewall")) ∧
          ¬ env.fwOk "forward-ipv6-reject" then
        .error "NetworkSetupAllowForwarding reject failed"
      else .ok ()
  match routingRes with
  | .error e => .error e
  | .ok _ =>
    if ¬ env.run ["ip", "-6", "addr", "add", "dev", n.name,
        n.config.get "ipv6.address"] then
      .error "ip -6 addr add failed"
    else if isTrue (n.config.get "ipv6.nat") ∧
        ¬ env.fwOk (if n.config.get "ipv6.nat.order" = "after" then "nat-ipv6-append"
          else "nat-ipv6-prepend") then
      .error "NetworkSetupNAT ipv6 failed"
    else
      match runAll env (if n.config.get "ipv6.routes" ≠ "" then
          ((goSplit (n.config.get "ipv6.routes") ',').map goTrimSpace).map fun r =>
            ["ip", "-6", "route", "add", "dev", n.name, r, "proto", "static"]
        else []) with
      | .error e => .error e
      | .ok _ =>
        match runAll env (ctRoutes.map fun r =>
            ["ip", "-6", "route", "replace", "dev", n.name, "proto", "boot"] ++
              (goSplit r ' ')) with
        | .error e => .error e
        | .ok _ => .ok args

/-- Lines 536-671: IPv6 address configuration: sysctls, the dnsmasq listen
address, router advertisements, the DHCPv6 or SLAAC range, forwarding, the
address, NAT, static routes and boot routes. -/
def setupV6 (n : NetInfo) (env : SetupEnv) (ctRoutes : List String)
    (args : List String) : Except GoError (List String) :=
  if ¬ stringInSlice (n.config.get "ipv6.address") ["", "none"] then
    if env.sysctl ("net/ipv6/conf/" ++ n.name ++ "/disable_ipv6") "0" ≠ .ok then
      .error "sysctl disable_ipv6 failed"
    else
      match parseCIDR (n.config.get "ipv6.address") with
      | none => .error "invalid ipv6.address CIDR"
      | some (ip, subnet) => setupV6tail n env ctRoutes (setupV6args n args ip subnet)
  else .ok args

/-- Fan-block state handed to the later phases. -/
structure FanSt where
  args : List String
  mtu : String
  dnsClustered : Bool
  dnsClusteredAddress : String
  overlaySubnet : Option IPNet
  deriving Repr, DecidableEq

/-- Result of the fan block: the source returns early with success when the
underlay subnet fails to parse (line 684). -/
inductive FanRes
  | early (args : List String)
  | cont (st : FanSt)
  deriving Repr, DecidableEq

/-- Lines 709-735: adjust the MTU from the overlay device, when known. -/
def setupFanMTU (n : NetInfo) (env : SetupEnv) (devName mtu : String) :
    Except GoError String :=
  match env.devMTU devName with
  | none => .ok mtu
  | some m =>
    let fanMtuInt := if n.config.get "fan.type" = "ipip" then m - 20 else m - 50
    let fanMtu := toString fanMtuInt
    if fanMtu ≠ mtu then
      if n.config.get "bridge.driver" ≠ "openvswitch" ∧
          ¬ env.run ["ip", "link", "set", "dev", n.name ++ "-mtu", "mtu", fanMtu] then
        .error "set dummy mtu failed"
      else if ¬ env.run ["ip", "link", "set", "dev", n.name, "mtu", fanMtu] then
        .error "set bridge mtu failed"
      else .ok fanMtu
    else .ok mtu

/-- Lines 762-803: the fan tunnel device (ipip via tunl0, else a vxlan
device attached to the bridge; the fan-map change of line 775 discards its
error). -/
def setupFanTunnel (n : NetInfo) (env : SetupEnv)
    (tunName overlay underlay addr0 devName devAddr mtu : String)
    (overlaySubnet : IPNet) : Except GoError Unit :=
  if n.config.get "fan.type" = "ipip" then
    if ¬ env.run ["ip", "-4", "route", "flush", "dev", "tunl0"] then
      .error "route flush tunl0 failed"
    else if ¬ env.run ["ip", "link", "set", "dev", "tunl0", "up"] then
      .error "tunl0 up failed"
    else if ¬ env.run ["ip", "route", "add", overlay, "dev", "tunl0", "src", addr0] then
      .error "route add overlay failed"
    else .ok ()
  else
    let vxlanID := toString (ipToNat (overlaySubnet.ip.take 4) / 256)
    if ¬ env.run ["ip", "link", "add", tunName, "type", "vxlan", "id", vxlanID, "dev",
        devName, "dstport", "0", "local", devAddr, "fan-map", overlay ++ ":" ++ underlay] then
      .error "vxlan add failed"
    else if ¬ env.attachOk n.name tunName then .error "AttachInterface failed"
    else if ¬ env.run ["ip", "link", "set", "dev", tunName, "mtu", mtu, "up"] then
      .error "vxlan mtu up failed"
    else if ¬ env.run ["ip", "link", "set", "dev", n.name, "up"] then
      .error "bridge up failed"
    else .ok ()

/-- Lines 762-833: the effectful remainder of the fan block: the tunnel
device, the tunnel NAT rule and the cluster address lookup; the dnsmasq
command line passes through unchanged into the continuing state. -/
def setupFanTail (n : NetInfo) (env : SetupEnv)
    (tunName overlay underlay addr0 devName devAddr mtu2 : String)
    (overlaySubnet : IPNet) (fanAddr : String) (args : List String) :
    Except GoError FanRes :=
  match setupFanTunnel n env tunName overlay underlay addr0 devName
      devAddr mtu2 overlaySubnet with
  | .error e => .error e
  | .ok _ =>
    if (n.config.get "ipv4.nat" = "" ∨ isTrue (n.config.get "ipv4.nat")) ∧
        ¬ env.fwOk (if n.config.get "ipv4.nat.order" = "after" then
          "tunnel-nat-append" else "tunnel-nat-prepend") then
      .error "NetworkSetupTunnelNAT failed"
    else
      match env.clusterAddr with
      | .error e => .error e
      | .ok clusterAddress =>
        .ok (.cont ⟨args, mtu2, clusterAddress ≠ "",
          (goSplit fanAddr '/').headD "", some overlaySubnet⟩)

/-- Lines 673-835: the fan block.  A parse failure of
`fan.underlay_subnet` takes the `return nil` of line 684: setup ends with
success without starting dnsmasq. -/
def setupFanBlock (n : NetInfo) (env : SetupEnv) (mtu : String) (args : List String) :
    Except GoError FanRes :=
  if n.config.get "bridge.mode" ≠ "fan" then
    .ok (.cont ⟨args, mtu, false, "", none⟩)
  else
    let tunName := n.name ++ "-fan"
    let underlay := n.config.get "fan.underlay_subnet"
    match parseCIDR underlay with
    | none => .ok (.early args)
    | some (_, underlaySubnet) =>
      let overlay :=
        if n.config.get "fan.overlay_subnet" = "" then "240.0.0.0/8"
        else n.config.get "fan.overlay_subnet"
      match parseCIDR overlay with
      | none => .error "invalid fan.overlay_subnet"
      | some (_, overlaySubnet) =>
        match env.ifacesRes with
        | none => .error "net.Interfaces failed"
        | some ifaces =>
          match fanAddress ifaces underlaySubnet overlaySubnet with
          | .error e => .error e
          | .ok (fanAddr0, devName, devAddr) =>
            let addr0 := (goSplit fanAddr0 '/').headD ""
            let fanAddr :=
              if n.config.get "fan.type" = "ipip" then addr0 ++ "/24" else fanAddr0
            match setupFanMTU n env devName mtu with
            | .error e => .error e
            | .ok mtu2 =>
              match parseCIDR (addr0 ++ "/24") with
              | none => .error "invalid host subnet"
              | some (_, hostSubnet) =>
                if ¬ env.run ["ip", "-4", "addr", "add", "dev", n.name, fanAddr] then
                  .error "ip -4 addr add failed"
                else
                  let expiry :=
                    if n.config.get "ipv4.dhcp.expiry" ≠ "" then
                      n.config.get "ipv4.dhcp.expiry"
                    else "1h"
                  setupFanTail n env tunName overlay underlay addr0 devName devAddr
                    mtu2 overlaySubnet fanAddr
                    (args ++ ["--listen-address=" ++ addr0,
                      "--dhcp-no-override", "--dhcp-authoritative",
                      "--dhcp-leasefile=" ++ varPath ["networks", n.name, "dnsmasq.leases"],
                      "--dhcp-hostsfile=" ++ varPath ["networks", n.name, "dnsmasq.hosts"],
                      "--dhcp-range",
                      ipString (GetIP hostSubnet 2) ++ "," ++
                        ipString (GetIP hostSubnet (-2)) ++ "," ++ expiry])

/-- Lines 837-926: one named tunnel. -/
def setupOneTunnel (n : NetInfo) (env : SetupEnv) (mtu tunnel : String) :
    Except GoError Unit :=
  let getCfg := fun (key : String) => n.config.get ("tunnel." ++ tunnel ++ "." ++ key)
  let tunProtocol := getCfg "protocol"
  let tunLocal := getCfg "local"
  let tunRemote := getCfg "remote"
  let tunName := n.name ++ "-" ++ tunnel
  let cmdBase := ["ip", "link", "add", "dev", tunName]
  let cmdRes : Except GoError (Option (List String)) :=
    if tunProtocol = "gre" then
      if tunProtocol = "" ∨ tunLocal = "" ∨ tunRemote = "" then .ok none
      else .ok (some (cmdBase ++ ["type", "gretap", "local", tunLocal, "remote", tunRemote]))
    else if tunProtocol = "vxlan" then
      let tunGroup := getCfg "group"
      let tunInterface := getCfg "interface"
      if tunProtocol = "" then .ok none
      else
        let cmd := cmdBase ++ ["type", "vxlan"]
        let midRes : Except GoError (List String) :=
          if tunLocal ≠ "" ∧ tunRemote ≠ "" then
            .ok (cmd ++ ["local", tunLocal, "remote", tunRemote])
          else
            let tunGroup2 := if tunGroup = "" then "239.0.0.1" else tunGroup
            if tunInterface = "" then
              match env.defaultGatewayDev with
              | .error e => .error e
              | .ok dev => .ok (cmd ++ ["group", tunGroup2, "dev", dev])
            else .ok (cmd ++ ["group", tunGroup2, "dev", tunInterface])
        match midRes with
        | .error e => .error e
        | .ok cmd2 =>
          let tunPort := if getCfg "port" = "" then "0" else getCfg "port"
          let tunID := if getCfg "id" = "" then "1" else getCfg "id"
          let tunTTL := if getCfg "ttl" = "" then "1" else getCfg "ttl"
          .ok (some (cmd2 ++ ["dstport", tunPort, "id", tunID, "ttl", tunTTL]))
    else .ok (some cmdBase)
  match cmdRes with
  | .error e => .error e
  | .ok none => .ok ()
  | .ok (some cmd) =>
    if ¬ env.run cmd then .error "tunnel create failed"
    else if ¬ env.attachOk n.name tunName then .error "AttachInterface failed"
    else if ¬ env.run ["ip", "link", "set", "dev", tunName, "mtu", mtu, "up"] then
      .error "tunnel mtu up failed"
    else if ¬ env.run ["ip", "link", "set", "dev", n.name, "up"] then
      .error "bridge up failed"
    else .ok ()

def setupTunnels (n : NetInfo) (env : SetupEnv) (mtu : String) :
    List String → Except GoError Unit
  | [] => .ok ()
  | t :: rest =>
    match setupOneTunnel n env mtu t with
    | .error e => .error e
    | .ok _ => setupTunnels n env mtu rest

/-- `Network.killForkDNS` (lines 1533-1553). -/
def killForkDNS (n : NetInfo) (env : SetupEnv) : Except GoError Unit :=
  if ¬ env.pathExists (varPath ["networks", n.name, "forkdns.pid"]) then .ok ()
  else if ¬ env.forkdnsImportOk then .error "Could not read pid file"
  else
    match env.forkdnsStopRes with
    | .ok => .ok ()
    | .notRunning => .ok ()
    | .err => .error "Unable to kill dnsmasq"

/-- Lines 928-937: kill any prior dnsmasq (modelled from the spec, the
dnsmasq supervisor package is not under the covered source) and forkdns. -/
def setupKill (n : NetInfo) (env : SetupEnv) : Except GoError Unit :=
  if ¬ env.killDnsmasqOk then .error "dnsmasq.Kill failed"
  else killForkDNS n env

/-- `Network.spawnForkDNS` (lines 1278-1316) via subprocess oracles. -/
def spawnForkDNS (_n : NetInfo) (env : SetupEnv) : Except GoError Unit :=
  if ¬ env.forkdnsNewOk then .error "Failed to create subprocess"
  else if ¬ env.forkdnsStartOk then .error "Failed to run forkdns"
  else if ¬ env.forkdnsSaveOk then .error "Failed to save subprocess details"
  else .ok ()

/-- The result of `setup`: the dnsmasq command line as built and whether
the dnsmasq process was started with it. -/
structure SetupOut where
  dnsmasqArgs : List String
  started : Bool
  deriving Repr, DecidableEq

/-- Lines 985-1049: the dnsmasq hosts directory, static entries, the
dnsmasq subprocess and (clustered) the forkdns subprocess; the finished
dnsmasq command line passes through unchanged. -/
def dnsmasqChecks (n : NetInfo) (env : SetupEnv) (dnsClustered : Bool)
    (args : List String) : Except GoError SetupOut :=
  if ¬ env.pathExists (varPath ["networks", n.name, "dnsmasq.hosts"]) ∧
      ¬ env.mkdirOk (varPath ["networks", n.name, "dnsmasq.hosts"]) then
    .error "MkdirAll dnsmasq.hosts failed"
  else if ¬ env.dnsmasqPresent then
    .error "dnsmasq is required for LXD managed bridges"
  else if ¬ env.staticOk then .error "UpdateDNSMasqStatic failed"
  else if ¬ env.procNewOk then .error "Failed to create subprocess"
  else if ¬ env.procStartOk then .error "Failed to run dnsmasq"
  else if ¬ env.procSaveOk then .error "Failed to save subprocess details"
  else if dnsClustered then
    if ¬ env.pathExists (varPath ["networks", n.name, "forkdns.servers"]) ∧
        ¬ env.mkdirOk (varPath ["networks", n.name, "forkdns.servers"]) then
      .error "MkdirAll forkdns.servers failed"
    else if ¬ env.fileCreateOk then .error "OpenFile servers.conf failed"
    else
      match spawnForkDNS n env with
      | .error e => .error e
      | .ok _ => .ok ⟨args, true⟩
  else .ok ⟨args, true⟩

/-- Lines 939-1051: the dnsmasq configuration and start block, or the
cleanup of stale lease and pid files when dnsmasq is not wanted. -/
def setupDnsmasqStart (n : NetInfo) (env : SetupEnv) (args : List String)
    (dnsClustered : Bool) (dnsClusteredAddress : String)
    (overlaySubnet : Option IPNet) : Except GoError SetupOut :=
  if n.config.get "bridge.mode" = "fan" ∨
      ¬ stringInSlice (n.config.get "ipv4.address") ["", "none"] ∨
      ¬ stringInSlice (n.config.get "ipv6.address") ["", "none"] then
    let dnsDomain :=
      if n.config.get "dns.domain" = "" then "lxd" else n.config.get "dns.domain"
    let dDns :=
      if n.config.get "dns.mode" ≠ "none" then
        if dnsClustered then
          ["-s", dnsDomain,
            "-S", "/" ++ dnsDomain ++ "/" ++ dnsClusteredAddress ++ "#1053",
            "--rev-server=" ++
              (match overlaySubnet with
               | some o => ipnetString o
               | none => "<nil>") ++ "," ++ dnsClusteredAddress ++ "#1053"]
        else ["-s", dnsDomain, "-S", "/" ++ dnsDomain ++ "/"]
      else []
    if ¬ env.writeOk then .error "write dnsmasq.raw failed"
    else
      let dConf := ["--conf-file=" ++ varPath ["networks", n.name, "dnsmasq.raw"]]
      let dUser := if env.unprivUser ≠ "" then ["-u", env.unprivUser] else []
      dnsmasqChecks n env dnsClustered (args ++ dDns ++ dConf ++ dUser)
  else
    if env.pathExists (varPath ["networks", n.name, "dnsmasq.leases"]) ∧
        ¬ env.removeOk (varPath ["networks", n.name, "dnsmasq.leases"]) then
      .error "Failed to remove old dnsmasq leases file"
    else if env.pathExists (varPath ["networks", n.name, "dnsmasq.pid"]) ∧
        ¬ env.removeOk (varPath ["networks", n.name, "dnsmasq.pid"]) then
      .error "Failed to remove old dnsmasq pid file"
    else .ok ⟨args, false⟩

/-- `Network.setup`: the phases in source order.  A mock-mode daemon
returns immediately; the fan block may end the whole function early with
success. -/
def networkSetup (n : NetInfo) (old : Option Config) (env : SetupEnv) :
    Except GoError SetupOut :=
  if env.mockMode then .ok ⟨[], false⟩
  else
    match setupBridgeInit n env with
    | .error e => .error e
    | .ok _ =>
      match setupCleanStale n env with
      | .error e => .error e
      | .ok _ =>
        match setupMTU n env with
        | .error e => .error e
        | .ok mtu =>
          match setupExternal n env with
          | .error e => .error e
          | .ok _ =>
            match setupV4Clear n old env with
            | .error e => .error e
            | .ok _ =>
              match setupV4Flush n env with
              | .error e => .error e
              | .ok ctRoutes4 =>
                match setupV4Firewall n env with
                | .error e => .error e
                | .ok _ =>
                  match baseDnsmasqArgs n env with
                  | .error e => .error e
                  | .ok args0 =>
                    match setupV4 n env ctRoutes4 args0 with
                    | .error e => .error e
                    | .ok args1 =>
                      match setupV6Clear n old env with
                      | .error e => .error e
                      | .ok _ =>
                        match setupV6Flush n env with
                        | .error e => .error e
                        | .ok ctRoutes6 =>
                          match setupV6 n env ctRoutes6 args1 with
                          | .error e => .error e
                          | .ok args2 =>
                            match setupFanBlock n env mtu args2 with
                            | .error e => .error e
                            | .ok (.early args3) => .ok ⟨args3, false⟩
                            | .ok (.cont fanSt) =>
                              match setupTunnels n env fanSt.mtu (getTunnels n.config) with
                              | .error e => .error e
                              | .ok _ =>
                                match setupKill n env with
                                | .error e => .error e
                                | .ok _ =>
                                  setupDnsmasqStart n env fanSt.args fanSt.dnsClustered
                                    fanSt.dnsClusteredAddress fanSt.overlaySubnet

/-- A list stays a suffix when material is prepended. -/
theorem suffix_extend {α : Type} {l t : List α} (s : List α) (h : l <:+ t) :
    l <:+ s ++ t := by
  obtain ⟨u, hu⟩ := h
  exact ⟨s ++ u, by rw [← hu]; simp⟩

/-- A list is a prefix of itself followed by two appended blocks. -/
theorem prefix_append2 {α : Type} (l s t : List α) : l <+: l ++ s ++ t :=
  ⟨s ++ t, by simp⟩

/-- A list is a prefix of itself followed by three appended blocks. -/
theorem prefix_append3 {α : Type} (l s t u : List α) : l <+: l ++ s ++ t ++ u :=
  ⟨s ++ (t ++ u), by simp⟩

/-- `setupV4tail` returns the dnsmasq command line it was given. -/
theorem setupV4tail_ok (n : NetInfo) (env : SetupEnv) (ct args args1 : List String)
    (h : setupV4tail n env ct args = .ok args1) : args1 = args := by
  unfold setupV4tail at h
  repeat (any_goals (first | split at h | dsimp only at h))
  all_goals first
    | (simp only [Except.ok.injEq] at h; exact h.symm)
    | simp at h

/-- `setupV6tail` returns the dnsmasq command line it was given. -/
theorem setupV6tail_ok (n : NetInfo) (env : SetupEnv) (ct args args1 : List String)
    (h : setupV6tail n env ct args = .ok args1) : args1 = args := by
  unfold setupV6tail at h
  repeat (any_goals (first | split at h | dsimp only at h))
  all_goals first
    | (simp only [Except.ok.injEq] at h; exact h.symm)
    | simp at h

/-- A continuing `setupFanTail` carries the dnsmasq command line it was
given. -/
theorem setupFanTail_ok (n : NetInfo) (env : SetupEnv)
    (tunName overlay underlay addr0 devName devAddr mtu2 : String)
    (overlaySubnet : IPNet) (fanAddr : String) (args : List String) (st : FanSt)
    (h : setupFanTail n env tunName overlay underlay addr0 devName devAddr mtu2
      overlaySubnet fanAddr args = .ok (.cont st)) : st.args = args := by
  unfold setupFanTail at h
  repeat (any_goals (first | split at h | dsimp only at h))
  all_goals first
    | (simp only [Except.ok.injEq, FanRes.cont.injEq] at h; subst h; rfl)
    | simp at h

/-- `dnsmasqChecks` returns the dnsmasq command line it was given. -/
theorem dnsmasqChecks_ok (n : NetInfo) (env : SetupEnv) (dnsClustered : Bool)
    (args : List String) (out : SetupOut)
    (h : dnsmasqChecks n env dnsClustered args = .ok out) : out.dnsmasqArgs = args := by
  unfold dnsmasqChecks at h
  repeat (any_goals (first | split at h | dsimp only at h))
  all_goals first
    | (simp only [Except.ok.injEq] at h; subst h; rfl)
    | simp at h

/-- `setupV4` only appends to the dnsmasq command line. -/
theorem setupV4_mono (n : NetInfo) (env : SetupEnv) (ct args0 args1 : List String)
    (h : setupV4 n env ct args0 = .ok args1) : args0 <+: args1 := by
  unfold setupV4 at h
  split at h
  · split at h
    · simp at h
    · rw [setupV4tail_ok _ _ _ _ _ h]
      unfold setupV4args
      exact prefix_append2 _ _ _
  · simp only [Except.ok.injEq] at h
    subst h
    exact List.prefix_refl _

/-- `setupV6` only appends to the dnsmasq command line. -/
theorem setupV6_mono (n : NetInfo) (env : SetupEnv) (ct args0 args1 : List String)
    (h : setupV6 n env ct args0 = .ok args1) : args0 <+: args1 := by
  unfold setupV6 at h
  split at h
  · split at h
    · simp at h
    · split at h
      · simp at h
      · rw [setupV6tail_ok _ _ _ _ _ h]
        unfold setupV6args
        exact prefix_append2 _ _ _
  · simp only [Except.ok.injEq] at h
    subst h
    exact List.prefix_refl _

/-- A continuing fan block only appends to the dnsmasq command line. -/
theorem setupFanBlock_cont_mono (n : NetInfo) (env : SetupEnv) (mtu : String)
    (args : List String) (st : FanSt)
    (h : setupFanBlock n env mtu args = .ok (.cont st)) : args <+: st.args := by
  unfold setupFanBlock at h
  split at h
  · simp only [Except.ok.injEq, FanRes.cont.injEq] at h
    subst h
    exact List.prefix_refl _
  · repeat (any_goals (first | split at h | dsimp only at h))
    all_goals first
      | (rw [setupFanTail_ok _ _ _ _ _ _ _ _ _ _ _ _ _ h]; exact List.prefix_append _ _)
      | simp at h

/-- The dnsmasq start phase only appends to the dnsmasq command line. -/
theorem setupDnsmasqStart_mono (n : NetInfo) (env : SetupEnv) (args : List String)
    (dnsClustered : Bool) (dnsClusteredAddress : String) (overlaySubnet : Option IPNet)
    (out : SetupOut)
    (h : setupDnsmasqStart n env args dnsClustered dnsClusteredAddress overlaySubnet =
      .ok out) : args <+: out.dnsmasqArgs := by
  unfold setupDnsmasqStart at h
  split at h
  · dsimp only at h
    split at h
    · simp at h
    · rw [dnsmasqChecks_ok _ _ _ _ _ h]
      exact prefix_append3 _ _ _ _
  · repeat (any_goals (first | split at h | dsimp only at h))
    all_goals first
      | (simp only [Except.ok.injEq] at h; subst h; exact List.prefix_refl _)
      | simp at h

/-- With DHCPv4 on and no explicit ranges, `setupV4` puts the default
`[S+2, S-2]` range on the dnsmasq command line. -/
theorem setupV4_range (n : NetInfo) (env : SetupEnv) (ct args0 args1 : List String)
    (ip : IPAddr) (S : IPNet)
    (haddr : ¬ (stringInSlice (n.config.get "ipv4.address") ["", "none"] = true))
    (hparse : parseCIDR (n.config.get "ipv4.address") = some (ip, S))
    (hdhcp : hasDHCPv4 n.config = true)
    (hranges : n.config.get "ipv4.dhcp.ranges" = "")
    (h : setupV4 n env ct args0 = .ok args1) :
    ["--dhcp-range",
      ipString (GetIP S 2) ++ "," ++ ipString (GetIP S (-2)) ++ "," ++
        (if n.config.get "ipv4.dhcp.expiry" ≠ "" then n.config.get "ipv4.dhcp.expiry"
         else "1h")] <:+: args1 := by
  unfold setupV4 at h
  rw [if_pos haddr, hparse] at h
  dsimp only at h
  rw [setupV4tail_ok _ _ _ _ _ h]
  unfold setupV4args
  simp only [hdhcp, hranges, ne_eq, not_true_eq_false, ite_true, ite_false, if_true, if_false]
  refine List.IsSuffix.isInfix ?_
  repeat (first | exact List.suffix_refl _ | apply suffix_extend)

/-- With DHCPv6 stateful on and no explicit ranges, `setupV6` puts the
default `[S+2, S-1]` range on the dnsmasq command line. -/
theorem setupV6_range (n : NetInfo) (env : SetupEnv) (ct args0 args1 : List String)
    (ip : IPAddr) (S : IPNet)
    (haddr : ¬ (stringInSlice (n.config.get "ipv6.address") ["", "none"] = true))
    (hparse : parseCIDR (n.config.get "ipv6.address") = some (ip, S))
    (hdhcp : hasDHCPv6 n.config = true)
    (hstateful : isTrue (n.config.get "ipv6.dhcp.stateful") = true)
    (hranges : n.config.get "ipv6.dhcp.ranges" = "")
    (h : setupV6 n env ct args0 = .ok args1) :
    ["--dhcp-range",
      ipString (GetIP S 2) ++ "," ++ ipString (GetIP S (-1)) ++ "," ++
        toString S.size ++ "," ++
        (if n.config.get "ipv6.dhcp.expiry" ≠ "" then n.config.get "ipv6.dhcp.expiry"
         else "1h")] <:+: args1 := by
  unfold setupV6 at h
  rw [if_pos haddr] at h
  split at h
  · simp at h
  · rw [hparse] at h
    dsimp only at h
    rw [setupV6tail_ok _ _ _ _ _ h]
    unfold setupV6args
    simp only [hdhcp, hstateful, hranges, ne_eq, not_true_eq_false, ite_true, ite_false]
    refine List.IsSuffix.isInfix ?_
    repeat (first | exact List.suffix_refl _ | apply suffix_extend)

/-- C8: DHCP range defaulting.  For every network with DHCP enabled and no
explicit `dhcp.ranges`, and a configured subnet `S`, the dnsmasq DHCPv4
range on the command line built by `setup` is `[S+2, S-2]`, and (with
`ipv6.dhcp.stateful` true) the DHCPv6 range is `[S+2, S-1]`
(lines 448-455 and 568-577 of lxd/network/network.go). -/
theorem dhcp_range_defaults (n : NetInfo) (old : Option Config) (env : SetupEnv)
    (out : SetupOut) (ip4 : IPAddr) (S4 : IPNet) (ip6 : IPAddr) (S6 : IPNet)
    (hok : networkSetup n old env = .ok out)
    (hstarted : out.started = true)
    (h4addr : ¬ (stringInSlice (n.config.get "ipv4.address") ["", "none"] = true))
    (h4parse : parseCIDR (n.config.get "ipv4.address") = some (ip4, S4))
    (h4dhcp : hasDHCPv4 n.config = true)
    (h4ranges : n.config.get "ipv4.dhcp.ranges" = "")
    (h6addr : ¬ (stringInSlice (n.config.get "ipv6.address") ["", "none"] = true))
    (h6parse : parseCIDR (n.config.get "ipv6.address") = some (ip6, S6))
    (h6dhcp : hasDHCPv6 n.config = true)
    (h6stateful : isTrue (n.config.get "ipv6.dhcp.stateful") = true)
    (h6ranges : n.config.get "ipv6.dhcp.ranges" = "") :
    ["--dhcp-range",
      ipString (GetIP S4 2) ++ "," ++ ipString (GetIP S4 (-2)) ++ "," ++
        (if n.config.get "ipv4.dhcp.expiry" ≠ "" then n.config.get "ipv4.dhcp.expiry"
         else "1h")] <:+: out.dnsmasqArgs ∧
    ["--dhcp-range",
      ipString (GetIP S6 2) ++ "," ++ ipString (GetIP S6 (-1)) ++ "," ++
        toString S6.size ++ "," ++
        (if n.config.get "ipv6.dhcp.expiry" ≠ "" then n.config.get "ipv6.dhcp.expiry"
         else "1h")] <:+: out.dnsmasqArgs := by
  unfold networkSetup at hok
  split at hok
  · simp only [Except.ok.injEq] at hok
    subst hok
    simp at hstarted
  · split at hok
    · simp at hok
    · split at hok
      · simp at hok
      · split at hok
        · simp at hok
        · split at hok
          · simp at hok
          · split at hok
            · simp at hok
            · split at hok
              · simp at hok
              · split at hok
                · simp at hok
                · split at hok
                  · simp at hok
                  · split at hok
                    · simp at hok
                    · rename_i args1 hv4
                      split at hok
                      · simp at hok
                      · split at hok
                        · simp at hok
                        · split at hok
                          · simp at hok
                          · rename_i args2 hv6
                            split at hok
                            · simp at hok
                            · -- fan early return: dnsmasq not started
                              simp only [Except.ok.injEq] at hok
                              subst hok
                              simp at hstarted
                            · rename_i fanSt hfan
                              split at hok
                              · simp at hok
                              · split at hok
                                · simp at hok
                                · refine ⟨?_, ?_⟩
                                  · exact (((setupV4_range n env _ _ _ _ _ h4addr
                                      h4parse h4dhcp h4ranges hv4).trans
                                        (setupV6_mono _ _ _ _ _ hv6).isInfix).trans
                                      (setupFanBlock_cont_mono _ _ _ _ _
                                        hfan).isInfix).trans
                                      (setupDnsmasqStart_mono _ _ _ _ _ _ _
                                        hok).isInfix
                                  · exact ((setupV6_range n env _ _ _ _ _ h6addr
                                      h6parse h6dhcp h6stateful h6ranges hv6).trans
                                      (setupFanBlock_cont_mono _ _ _ _ _
                                        hfan).isInfix).trans
                                      (setupDnsmasqStart_mono _ _ _ _ _ _ _
                                        hok).isInfix

/-- A setup environment in which every external effect succeeds: paths
exist, commands, sysctls, firewall and subprocess operations all succeed,
dnsmasq is version 2.80, there are no other host interfaces and no cluster
address. -/
def envAllOk : SetupEnv := ⟨false, fun _ => true, fun _ => true, true, true, true,
  fun _ => true, fun _ _ => .ok, some [], fun _ => true, some [], some [], some [2, 80],
  false, fun _ => none, fun _ _ => true, some [], .ok "", "", true, true, true, true,
  true, true, true, true, fun _ => true, true, .ok "eth0", true, true, .ok⟩

/-- A fan-mode network whose `fan.underlay_subnet` does not parse as a
CIDR. -/
def nC2 : NetInfo := ⟨"lxdbr0", [("bridge.mode", "fan"),
  ("fan.underlay_subnet", "garbage")]⟩

/-- C2: the spec says setup surfaces every step failure: with `bridge.mode`
fan, an unparsable `fan.underlay_subnet` must make setup return a non-nil
error.  Refuted by the source: the `return nil` of
lxd/network/network.go:684 ends setup with success.  Concretely, a fan
network with `fan.underlay_subnet` "garbage" under an all-successful
environment makes setup return ok — with dnsmasq never even started —
instead of the error the spec requires. -/
theorem setup_fan_underlay_error_not_surfaced :
    nC2.config.get "bridge.mode" = "fan" ∧
    parseCIDR (nC2.config.get "fan.underlay_subnet") = none ∧
    networkSetup nC2 none envAllOk =
      .ok ⟨["--keep-in-foreground", "--strict-order", "--bind-interfaces",
        "--except-interface=lo", "--no-ping", "--interface=lxdbr0",
        "--dhcp-rapid-commit", "--quiet-dhcp", "--quiet-dhcp6", "--quiet-ra"],
        false⟩ := by
  exact ⟨rfl, rfl, rfl⟩

/-- A dual-stack network with DHCPv4 on by default, stateful DHCPv6 and no
explicit ranges. -/
def nC8 : NetInfo := ⟨"lxdbr0", [("ipv4.address", "10.1.2.1/24"),
  ("ipv6.address", "fd00:1:1:1::1/64"), ("ipv6.dhcp.stateful", "true")]⟩

/-- The dnsmasq command line `setup` builds for `nC8` under `envAllOk`. -/
def outC8 : SetupOut := ⟨["--keep-in-foreground", "--strict-order",
  "--bind-interfaces", "--except-interface=lo", "--no-ping", "--interface=lxdbr0",
  "--dhcp-rapid-commit", "--quiet-dhcp", "--quiet-dhcp6", "--quiet-ra",
  "--listen-address=10.1.2.1", "--dhcp-no-override", "--dhcp-authoritative",
  "--dhcp-leasefile=networks/lxdbr0/dnsmasq.leases",
  "--dhcp-hostsfile=networks/lxdbr0/dnsmasq.hosts",
  "--dhcp-range", "10.1.2.2,10.1.2.254,1h", "--listen-address=fd00:1:1:1::1",
  "--enable-ra", "--dhcp-range", "fd00:1:1:1::2,fd00:1:1:1:ffff:ffff:ffff:ffff,64,1h",
  "-s", "lxd", "-S", "/lxd/", "--conf-file=networks/lxdbr0/dnsmasq.raw"], true⟩

/-- Witness for C8: for 10.1.2.1/24 the DHCPv4 range is 10.1.2.2-10.1.2.254
and for fd00:1:1:1::1/64 the stateful DHCPv6 range is fd00:1:1:1::2 to
fd00:1:1:1:ffff:ffff:ffff:ffff. -/
theorem dhcp_range_defaults_witness :
    ["--dhcp-range",
      ipString (GetIP ⟨[10, 1, 2, 0], 24⟩ 2) ++ "," ++
        ipString (GetIP ⟨[10, 1, 2, 0], 24⟩ (-2)) ++ "," ++
        (if nC8.config.get "ipv4.dhcp.expiry" ≠ "" then nC8.config.get "ipv4.dhcp.expiry"
         else "1h")] <:+: outC8.dnsmasqArgs ∧
    ["--dhcp-range",
      ipString (GetIP ⟨[253, 0, 0, 1, 0, 1, 0, 1, 0, 0, 0, 0, 0, 0, 0, 0], 64⟩ 2) ++
        "," ++
        ipString (GetIP ⟨[253, 0, 0, 1, 0, 1, 0, 1, 0, 0, 0, 0, 0, 0, 0, 0], 64⟩ (-1)) ++
        "," ++ toString (IPNet.size ⟨[253, 0, 0, 1, 0, 1, 0, 1, 0, 0, 0, 0, 0, 0, 0, 0], 64⟩) ++
        "," ++
        (if nC8.config.get "ipv6.dhcp.expiry" ≠ "" then nC8.config.get "ipv6.dhcp.expiry"
         else "1h")] <:+: outC8.dnsmasqArgs := by
  exact dhcp_range_defaults nC8 none envAllOk outC8
    [10, 1, 2, 1] ⟨[10, 1, 2, 0], 24⟩
    [253, 0, 0, 1, 0, 1, 0, 1, 0, 0, 0, 0, 0, 0, 0, 1]
    ⟨[253, 0, 0, 1, 0, 1, 0, 1, 0, 0, 0, 0, 0, 0, 0, 0], 64⟩
    (by decide) (by decide) (by decide) (by decide) (by decide) (by decide)
    (by decide) (by decide) (by decide) (by decide) (by decide)

end Lxd
